import Mathlib

/-!
Verification development for the Neon-puck arcade game.

The definitions below are a shallow embedding of the game's simulation and
input code (`src/main.js`, plus the filtered wall-segment provider of the
`part_003` variant).  Positions, velocities and times are modelled over `ℝ`
(the source uses IEEE doubles); pointer identifiers and puck indices over `ℕ`.
Mutation of the module-level state is modelled by explicit state passing on a
`GameState` record.  `Date.now()` is passed in as an explicit `now : ℕ`
argument (milliseconds).  `Math.random()` draws made by `startGame` are passed
in as an explicit jitter function.
-/

namespace NeonPuck

noncomputable section

/-! ## Game constants (src/main.js lines 1-10) -/

def PUCK_RADIUS : ℝ := 15
def HOLE_WIDTH : ℝ := 100
def WALL_THICKNESS : ℝ := 20
def FRICTION : ℝ := 0.995
def BOUNCE_DAMPING : ℝ := 0.9
def MAX_SPEED : ℝ := 50
def DRAG_FORCE : ℝ := 0.30

/-! ## Data model -/

/-- A puck.  The source object also carries a constant `color` string used
only by the renderer; it is omitted.  `id` is the spawn identity. -/
structure Puck where
  id : ℕ
  x : ℝ
  y : ℝ
  vx : ℝ
  vy : ℝ

/-- A horizontal wall segment at the arena midline.  The source field `end`
is a Lean keyword, hence the guillemets. -/
structure Segment where
  start : ℝ
  «end» : ℝ

/-- A circular obstacle (also used for wall-end caps). -/
structure Obstacle where
  x : ℝ
  y : ℝ
  radius : ℝ

/-- The rubber-band anchor of a drag session. -/
structure Anchor where
  x : ℝ
  y : ℝ

inductive Side where
  | top
  | bottom
deriving DecidableEq

/-- One drag session, the value stored in the `activeTouches` map. -/
structure Touch where
  puckIndex : ℕ
  startX : ℝ
  startY : ℝ
  currentX : ℝ
  currentY : ℝ
  anchor : Option Anchor
  side : Side

inductive GState where
  | start
  | playing
  | won
deriving DecidableEq

/-- The module-level mutable state of src/main.js.  `width`/`height` are the
canvas CSS dimensions; `gapOffset` models the load-time constant
`GAP_OFFSET = min(200, clientWidth / 4)`.  The `activeTouches` `Map` is an
association list keyed by pointer identifier. -/
structure GameState where
  gameState : GState
  winner : Option Side
  pucks : List Puck
  activeTouches : List (ℕ × Touch)
  winTimestamp : Option ℕ
  topWins : ℕ
  bottomWins : ℕ
  currentLevel : ℕ
  width : ℝ
  height : ℝ
  gapOffset : ℝ

/-! ## Cap collision (src/main.js lines 291-314) -/

/-- Value `dist` of `checkCapCollision`: distance from the puck center to the cap
center (`Math.sqrt(dx*dx + dy*dy)`). -/
def distOf (p : Puck) (capX capY : ℝ) : ℝ :=
  Real.sqrt ((p.x - capX) * (p.x - capX) + (p.y - capY) * (p.y - capY))

/-- Value `safeDist` of `checkCapCollision`: the guarded divisor
(`dist > 1e-6 ? dist : 1e-6`). -/
def safeDistOf (p : Puck) (capX capY : ℝ) : ℝ :=
  if distOf p capX capY > 1e-6 then distOf p capX capY else 1e-6

/-- Function `checkCapCollision(puck, capX, capY, halfWallThick)`: circle-vs-circle
separation and damped reflection about the connecting normal. -/
def checkCapCollision (p : Puck) (capX capY halfWallThick : ℝ) : Puck :=
  let dx := p.x - capX
  let dy := p.y - capY
  let dist := distOf p capX capY
  let radiusSum := halfWallThick + PUCK_RADIUS
  if dist < radiusSum then
    let safeDist := safeDistOf p capX capY
    let nx := dx / safeDist
    let ny := dy / safeDist
    let overlap := radiusSum - dist
    let x1 := p.x + nx * overlap
    let y1 := p.y + ny * overlap
    let dp := p.vx * nx + p.vy * ny
    let vx1 := p.vx - 2 * dp * nx
    let vy1 := p.vy - 2 * dp * ny
    { p with x := x1, y := y1, vx := vx1 * BOUNCE_DAMPING, vy := vy1 * BOUNCE_DAMPING }
  else p

/-! ## Geometry provider (src/main.js lines 651-747) -/

/-- The `getOffset` helper inside `getWallSegments` (moving-hole offset):
`Math.sin(Date.now() * speed + phase) * range`. -/
def getOffset (w : ℝ) (now : ℕ) (speedFactor rangeFactor phase : ℝ) : ℝ :=
  let speed := 0.0015 * (375 / w) * speedFactor
  let range := w * rangeFactor
  Real.sin ((now : ℝ) * speed + phase) * range

/-- Function `getWallSegments()` of src/main.js.  `[h1, h2].sort((a,b) => a-b)` on the
two-element array is expressed with `min`/`max`.  The final list is the
fallback of the source, unreachable since `level = currentLevel + 1 ≥ 1`. -/
def getWallSegments (currentLevel : ℕ) (w : ℝ) (now : ℕ) (gapOffset : ℝ) :
    List Segment :=
  let level := currentLevel + 1
  let center := w / 2
  let halfHole := HOLE_WIDTH / 2
  if level = 1 then
    [⟨0, center - halfHole⟩, ⟨center + halfHole, w⟩]
  else if level = 2 ∨ level = 5 then
    let offset := getOffset w now 1.0 0.22 0
    [⟨0, center + offset - halfHole⟩, ⟨center + offset + halfHole, w⟩]
  else if level = 3 then
    let hole1Center := center - gapOffset
    let hole2Center := center + gapOffset
    [⟨0, hole1Center - halfHole⟩, ⟨hole1Center + halfHole, hole2Center - halfHole⟩,
      ⟨hole2Center + halfHole, w⟩]
  else if level = 4 ∨ 6 ≤ level then
    let offset1 := getOffset w now 0.35 0.35 0
    let h1 := center + offset1
    let offset2 := getOffset w now 0.65 0.35 Real.pi
    let h2 := center + offset2
    let leftHole := min h1 h2
    let rightHole := max h1 h2
    [⟨0, leftHole - halfHole⟩, ⟨leftHole + halfHole, rightHole - halfHole⟩,
      ⟨rightHole + halfHole, w⟩]
  else
    [⟨0, center - halfHole⟩, ⟨center + halfHole, w⟩]

/-- Function `getObstacles()` of src/main.js. -/
def getObstacles (currentLevel : ℕ) (w h : ℝ) : List Obstacle :=
  let level := currentLevel + 1
  let radius := WALL_THICKNESS / 2 * 1.3
  let center := w / 2
  let topObsY := (h / 2 + h * 0.15) / 2
  let bottomObsY := (h / 2 + h * 0.85) / 2
  if level = 5 ∨ 6 ≤ level then
    [⟨center, topObsY, radius⟩, ⟨center, bottomObsY, radius⟩]
  else
    []

/-- Hole position parameters of the `part_003` variant's interpolated
`currentParamState` (one entry of its two-element `holes` array). -/
structure HoleParam where
  baseOffset : ℝ
  offsetVal : ℝ

/-- The `part_003` variant's `currentParamState` (its `obsScale` field is not
read by `getWallSegments` and is omitted). -/
structure ParamState where
  hole1 : HoleParam
  hole2 : HoleParam

/-- Function `getWallSegments()` of src/unnamed/part_003 (lines 273-307): builds the
three candidate segments from the two sorted hole positions and then drops
every degenerate segment with `end <= start`
(`segments.filter(s => s.end > s.start)`). -/
def getWallSegmentsFiltered (w : ℝ) (cps : Option ParamState) : List Segment :=
  match cps with
  | none => []
  | some st =>
    let center := w / 2
    let halfHole := HOLE_WIDTH / 2
    let pos1 := center + st.hole1.baseOffset + st.hole1.offsetVal
    let pos2 := center + st.hole2.baseOffset + st.hole2.offsetVal
    let leftHole := min pos1 pos2
    let rightHole := max pos1 pos2
    ([⟨0, leftHole - halfHole⟩, ⟨leftHole + halfHole, rightHole - halfHole⟩,
      ⟨rightHole + halfHole, w⟩] : List Segment).filter
      (fun s => s.«end» > s.start)

/-! ## Simulation sub-step (src/main.js lines 126-248)

The body of `pucks.forEach((puck, index) => ...)` is decomposed, in source
order, into: integration, the four boundary bounces, per-segment wall and cap
collisions, obstacle collisions, and the pairwise collision loop over later
indices.  `activeTouches` is consulted through `isClaimed`. -/

/-- Loop `for (const touch of activeTouches.values()) if (touch.puckIndex === i)`:
whether some active drag session references puck index `i`. -/
def isClaimed (ts : List (ℕ × Touch)) (i : ℕ) : Prop :=
  ∃ kv ∈ ts, kv.2.puckIndex = i

instance (ts : List (ℕ × Touch)) (i : ℕ) : Decidable (isClaimed ts i) := by
  unfold isClaimed; infer_instance

/-- Movement: `puck.x += puck.vx / steps; puck.y += puck.vy / steps`. -/
def integrate (steps : ℝ) (p : Puck) : Puck :=
  { p with x := p.x + p.vx / steps, y := p.y + p.vy / steps }

/-- The four sequential boundary bounces (src/main.js lines 151-154). -/
def boundaryCollide (w h : ℝ) (p0 : Puck) : Puck :=
  let p1 := if p0.x - PUCK_RADIUS < 0 then
    { p0 with x := PUCK_RADIUS, vx := p0.vx * -BOUNCE_DAMPING } else p0
  let p2 := if p1.x + PUCK_RADIUS > w then
    { p1 with x := w - PUCK_RADIUS, vx := p1.vx * -BOUNCE_DAMPING } else p1
  let p3 := if p2.y - PUCK_RADIUS < 0 then
    { p2 with y := PUCK_RADIUS, vy := p2.vy * -BOUNCE_DAMPING } else p2
  if p3.y + PUCK_RADIUS > h then
    { p3 with y := h - PUCK_RADIUS, vy := p3.vy * -BOUNCE_DAMPING } else p3

/-- The rectangular part of a wall-segment collision (src/main.js
lines 167-173). -/
def wallCollide (wallY halfWallThick : ℝ) (p : Puck) (seg : Segment) : Puck :=
  if p.y + PUCK_RADIUS ≥ wallY - halfWallThick ∧
      p.y - PUCK_RADIUS ≤ wallY + halfWallThick then
    if p.x ≥ seg.start ∧ p.x ≤ seg.«end» then
      let y1 := if p.y < wallY then wallY - halfWallThick - PUCK_RADIUS - 1
        else wallY + halfWallThick + PUCK_RADIUS + 1
      { p with y := y1, vy := p.vy * -BOUNCE_DAMPING }
    else p
  else p

/-- One iteration of `walls.forEach(segment => ...)`: rectangular part, then
the two end caps (skipping caps that sit on a screen edge). -/
def segmentCollide (w wallY halfWallThick : ℝ) (p : Puck) (seg : Segment) : Puck :=
  let p1 := wallCollide wallY halfWallThick p seg
  let p2 := if seg.start > 0 then checkCapCollision p1 seg.start wallY halfWallThick else p1
  if seg.«end» < w then checkCapCollision p2 seg.«end» wallY halfWallThick else p2

/-- One iteration of the ball-to-ball loop body (src/main.js lines 202-245)
for the pair `(puck, other)`: overlap resolution and damped equal-mass elastic
exchange.  The source computes the separation direction as
`(cos (atan2 dy dx), sin (atan2 dy dx))`, which equals `(dx / dist, dy / dist)`
whenever `dist ≠ 0`; the collision normal itself is `(dx / dist, dy / dist)`
with no zero-distance guard, exactly as in the source. -/
def pairCollide (puck other : Puck) : Puck × Puck :=
  let dx := other.x - puck.x
  let dy := other.y - puck.y
  let dist := Real.sqrt (dx * dx + dy * dy)
  let minDist := PUCK_RADIUS * 2
  if dist < minDist then
    let overlap := minDist - dist
    let moveX := dx / dist * overlap / 2
    let moveY := dy / dist * overlap / 2
    let nx := dx / dist
    let ny := dy / dist
    let tx := -ny
    let ty := nx
    let dpTan1 := puck.vx * tx + puck.vy * ty
    let dpTan2 := other.vx * tx + other.vy * ty
    let dpNorm1 := puck.vx * nx + puck.vy * ny
    let dpNorm2 := other.vx * nx + other.vy * ny
    let m1 : ℝ := 1
    let m2 : ℝ := 1
    let mom1 := (dpNorm1 * (m1 - m2) + 2 * m2 * dpNorm2) / (m1 + m2)
    let mom2 := (dpNorm2 * (m2 - m1) + 2 * m1 * dpNorm1) / (m1 + m2)
    (⟨puck.id, puck.x - moveX, puck.y - moveY,
        (tx * dpTan1 + nx * mom1) * BOUNCE_DAMPING,
        (ty * dpTan1 + ny * mom1) * BOUNCE_DAMPING⟩,
      ⟨other.id, other.x + moveX, other.y + moveY,
        (tx * dpTan2 + nx * mom2) * BOUNCE_DAMPING,
        (ty * dpTan2 + ny * mom2) * BOUNCE_DAMPING⟩)
  else (puck, other)

/-- One iteration of the inner `for (let j = index + 1; ...)` loop: resolves
the pair `(i, j)` in the current puck list unless `j` is dragged. -/
def pairStep (ts : List (ℕ × Touch)) (i j : ℕ) (ps : List Puck) : List Puck :=
  if isClaimed ts j then ps
  else
    match ps[i]?, ps[j]? with
    | some pi, some pj =>
      let r := pairCollide pi pj
      (ps.set i r.1).set j r.2
    | _, _ => ps

/-- The whole loop body for outer index `i` in one physics sub-step: skipped
when puck `i` is dragged; otherwise integration, boundary, wall segments,
obstacles, then the pairwise loop over `j = i+1 .. length-1`. -/
def substepOne (w h : ℝ) (walls : List Segment) (obstacles : List Obstacle)
    (ts : List (ℕ × Touch)) (i : ℕ) (ps : List Puck) : List Puck :=
  if isClaimed ts i then ps
  else
    match ps[i]? with
    | none => ps
    | some p =>
      let p1 := integrate 5 p
      let p2 := boundaryCollide w h p1
      let p3 := walls.foldl (segmentCollide w (h / 2) (WALL_THICKNESS / 2)) p2
      let p4 := obstacles.foldl (fun q obs => checkCapCollision q obs.x obs.y obs.radius) p3
      ((List.range ps.length).drop (i + 1)).foldl
        (fun acc j => pairStep ts i j acc) (ps.set i p4)

/-- One physics sub-step: `pucks.forEach((puck, index) => ...)`. -/
def substep (w h : ℝ) (walls : List Segment) (obstacles : List Obstacle)
    (ts : List (ℕ × Touch)) (ps : List Puck) : List Puck :=
  (List.range ps.length).foldl
    (fun acc i => substepOne w h walls obstacles ts i acc) ps

/-- The post-step friction pass (src/main.js lines 251-263), skipping dragged
pucks; the side tally of the same loop reads only `y`, which this pass never
writes, so it is counted separately below. -/
def applyFriction (ts : List (ℕ × Touch)) : ℕ → List Puck → List Puck
  | _, [] => []
  | i, p :: rest =>
    (if isClaimed ts i then p
      else { p with vx := p.vx * FRICTION, vy := p.vy * FRICTION }) ::
      applyFriction ts (i + 1) rest

/-- Tally `topCount`: pucks with `y < height / 2`. -/
def topCountOf (ps : List Puck) (h : ℝ) : ℕ :=
  ps.countP fun p => decide (p.y < h / 2)

/-- Tally `bottomCount`: the remaining pucks. -/
def bottomCountOf (ps : List Puck) (h : ℝ) : ℕ :=
  ps.countP fun p => decide (¬ p.y < h / 2)

/-- The five physics sub-steps followed by the friction pass. -/
def stepPucks (s : GameState) (now : ℕ) : List Puck :=
  let walls := getWallSegments s.currentLevel s.width now s.gapOffset
  let obstacles := getObstacles s.currentLevel s.width s.height
  let ps5 := (List.range 5).foldl
    (fun acc _ => substep s.width s.height walls obstacles s.activeTouches acc) s.pucks
  applyFriction s.activeTouches 0 ps5

/-- The win-condition block of `update` (src/main.js lines 269-288).
`if (!winTimestamp)` tests for `null`; a stored timestamp is `Date.now() + 800
> 0` and therefore never falsy. -/
def winCheck (s : GameState) (topCount bottomCount now : ℕ) : GameState :=
  if topCount = 0 then
    match s.winTimestamp with
    | none => { s with winTimestamp := some (now + 800) }
    | some wt =>
      if now > wt then
        { s with gameState := .won, winner := some .top, topWins := s.topWins + 1 }
      else s
  else if bottomCount = 0 then
    match s.winTimestamp with
    | none => { s with winTimestamp := some (now + 800) }
    | some wt =>
      if now > wt then
        { s with gameState := .won, winner := some .bottom, bottomWins := s.bottomWins + 1 }
      else s
  else { s with winTimestamp := none }

/-- Function `update()` (src/main.js lines 126-289): a no-op unless playing; otherwise
physics, friction, side tally and the win check.  (`updateScoreUI` only
touches the DOM.) -/
def update (s : GameState) (now : ℕ) : GameState :=
  if s.gameState = .playing then
    let ps := stepPucks s now
    winCheck { s with pucks := ps } (topCountOf ps s.height) (bottomCountOf ps s.height) now
  else s

/-- Kinetic energy of a puck with the uniform mass `1` of the source
(`m1 = m2 = 1`). -/
def ke (p : Puck) : ℝ :=
  (p.vx * p.vx + p.vy * p.vy) / 2

/-! ## The `activeTouches` map

`activeTouches` is a JS `Map`; the embedding is an association list.  A key is
inserted only when absent (`handleStart` guards on `activeTouches.has(id)`),
value mutation (`touch.currentX = x` on the object returned by `get`) is
replacement of the first binding, and `Map.delete` removes the binding.
Iteration order is consulted only through existence checks (`isClaimed`),
so the position of a fresh binding is immaterial. -/

def lookupTouch (id : ℕ) : List (ℕ × Touch) → Option Touch
  | [] => none
  | (k, t) :: rest => if k = id then some t else lookupTouch id rest

def setTouch (id : ℕ) (t : Touch) : List (ℕ × Touch) → List (ℕ × Touch)
  | [] => []
  | (k, t0) :: rest =>
    if k = id then (k, t) :: rest else (k, t0) :: setTouch id t rest

def removeTouch (id : ℕ) (ts : List (ℕ × Touch)) : List (ℕ × Touch) :=
  ts.filter fun kv => kv.1 ≠ id

/-! ## Input handlers (src/main.js lines 478-621) -/

/-- The hit-test distance of `handleStart`'s `findIndex` predicate. -/
def pressDist (p : Puck) (x y : ℝ) : ℝ :=
  Real.sqrt ((p.x - x) * (p.x - x) + (p.y - y) * (p.y - y))

/-- Search `pucks.findIndex((p, index) => ...)` of `handleStart`: the first index
whose puck is not referenced by any active session and lies within
`PUCK_RADIUS * 3` of the press point.  `n` is the index of the list head. -/
def findClickedAux (ts : List (ℕ × Touch)) (x y : ℝ) :
    List Puck → ℕ → Option ℕ
  | [], _ => none
  | p :: rest, n =>
    if ¬ isClaimed ts n ∧ pressDist p x y < PUCK_RADIUS * 3 then some n
    else findClickedAux ts x y rest (n + 1)

/-- Function `startGame()` (src/main.js lines 85-117).  The `Math.random()` draws are
supplied through `jit`: `(jit i).1` stands for `random * 200 - 100` and
`(jit i).2` for `random * 100 - 50` of the spawn of puck `i`. -/
def startGame (s : GameState) (jit : ℕ → ℝ × ℝ) : GameState :=
  { s with
    pucks :=
      ((List.range 5).map fun i =>
        ⟨i, s.width / 2 + (jit i).1, s.height * 0.25 + (jit i).2, 0, 0⟩) ++
      ((List.range 5).map fun i =>
        ⟨i + 5, s.width / 2 + (jit (i + 5)).1, s.height * 0.75 + (jit (i + 5)).2, 0, 0⟩),
    activeTouches := [],
    gameState := .playing,
    winner := none,
    winTimestamp := none,
    currentLevel := s.topWins + s.bottomWins }

/-- Function `handleStart(x, y, id)` (src/main.js lines 478-525).  When not playing,
any press restarts the match (`gameState` is always one of the three enum
values).  If the hit test finds a puck, a session is created only when the
press point and the puck lie on the same side of the midline; the claimed
puck's velocity is zeroed. -/
def handleStart (s : GameState) (x y : ℝ) (id : ℕ) (jit : ℕ → ℝ × ℝ) : GameState :=
  if s.gameState ≠ .playing then startGame s jit
  else if (lookupTouch id s.activeTouches).isSome then s
  else
    match findClickedAux s.activeTouches x y s.pucks 0 with
    | none => s
    | some i =>
      match s.pucks[i]? with
      | none => s
      | some puck =>
        if y < s.height / 2 ↔ puck.y < s.height / 2 then
          let side := if y < s.height / 2 then Side.top else Side.bottom
          { s with
            activeTouches := (id, ⟨i, x, y, x, y, none, side⟩) :: s.activeTouches,
            pucks := s.pucks.set i { puck with vx := 0, vy := 0 } }
        else s

/-- Function `handleMove(x, y, id)` (src/main.js lines 527-560): drags the claimed puck
to the pointer, clamps it to its own half, and maintains the band anchor. -/
def handleMove (s : GameState) (x y : ℝ) (id : ℕ) : GameState :=
  match lookupTouch id s.activeTouches with
  | none => s
  | some touch =>
    match s.pucks[touch.puckIndex]? with
    | none => s
    | some puck =>
      let topBandY := s.height * 0.15
      let bottomBandY := s.height * 0.85
      match touch.side with
      | .top =>
        let py := min y (s.height / 2 - PUCK_RADIUS - 10)
        let anchor1 := if py < topBandY then
            (if touch.anchor.isNone then some ⟨x, topBandY⟩ else touch.anchor)
          else none
        { s with
          pucks := s.pucks.set touch.puckIndex { puck with x := x, y := py },
          activeTouches := setTouch id
            { touch with currentX := x, currentY := y, anchor := anchor1 }
            s.activeTouches }
      | .bottom =>
        let py := max y (s.height / 2 + PUCK_RADIUS + 10)
        let anchor1 := if py > bottomBandY then
            (if touch.anchor.isNone then some ⟨x, bottomBandY⟩ else touch.anchor)
          else none
        { s with
          pucks := s.pucks.set touch.puckIndex { puck with x := x, y := py },
          activeTouches := setTouch id
            { touch with currentX := x, currentY := y, anchor := anchor1 }
            s.activeTouches }

/-- Function `handleEnd(id)` (src/main.js lines 562-586): if the session has an anchor
the puck is launched with the rubber-band impulse, speed-capped at
`MAX_SPEED`; the session is destroyed either way.  `touchcancel` is routed to
the same handler by the event wrappers. -/
def handleEnd (s : GameState) (id : ℕ) : GameState :=
  match lookupTouch id s.activeTouches with
  | none => s
  | some touch =>
    match s.pucks[touch.puckIndex]? with
    | none => { s with activeTouches := removeTouch id s.activeTouches }
    | some puck =>
      match touch.anchor with
      | some a =>
        let vx := (a.x - puck.x) * DRAG_FORCE
        let vy := (a.y - puck.y) * DRAG_FORCE
        let speed := Real.sqrt (vx * vx + vy * vy)
        let vx1 := if speed > MAX_SPEED then vx * (MAX_SPEED / speed) else vx
        let vy1 := if speed > MAX_SPEED then vy * (MAX_SPEED / speed) else vy
        { s with
          pucks := s.pucks.set touch.puckIndex { puck with vx := vx1, vy := vy1 },
          activeTouches := removeTouch id s.activeTouches }
      | none => { s with activeTouches := removeTouch id s.activeTouches }

/-! ## The event-driven execution model

The frame callback and the four pointer phases, applied to the state in
arrival order (section 5 of the spec: all handlers run between frames). -/

inductive Ev where
  | press (x y : ℝ) (id : ℕ) (jit : ℕ → ℝ × ℝ)
  | move (x y : ℝ) (id : ℕ)
  | release (id : ℕ)
  | cancel (id : ℕ)
  | frame (now : ℕ)

def stepEv (s : GameState) : Ev → GameState
  | .press x y id jit => handleStart s x y id jit
  | .move x y id => handleMove s x y id
  | .release id => handleEnd s id
  | .cancel id => handleEnd s id
  | .frame now => update s now

def run (s : GameState) (evs : List Ev) : GameState :=
  evs.foldl stepEv s

/-- Fold `moves.foldl handleMove`: a burst of move events applied in order. -/
def applyMoves (s : GameState) (moves : List (ℝ × ℝ × ℕ)) : GameState :=
  moves.foldl (fun st m => handleMove st m.1 m.2.1 m.2.2) s

/-- Pointer `id` owns a session whose puck currently has zero velocity. -/
def ZeroVelSession (id : ℕ) (s : GameState) : Prop :=
  ∃ t, lookupTouch id s.activeTouches = some t ∧
    ∃ p, s.pucks[t.puckIndex]? = some p ∧ p.vx = 0 ∧ p.vy = 0

/-! ## Concrete states used by witnesses and counterexamples -/

/-- A level-1 playing state with a single stationary puck on the bottom half,
horizontally centered in the gap so it touches no wall or cap. -/
def oneBottomPuck (wt : Option ℕ) : GameState :=
  { gameState := .playing, winner := none, pucks := [⟨0, 187.5, 450, 0, 0⟩],
    activeTouches := [], winTimestamp := wt, topWins := 0, bottomWins := 0,
    currentLevel := 0, width := 375, height := 600, gapOffset := 200 }

/-- A level-1 playing state with a single stationary puck on the top half. -/
def oneTopPuck (wt : Option ℕ) : GameState :=
  { gameState := .playing, winner := none, pucks := [⟨0, 187.5, 150, 0, 0⟩],
    activeTouches := [], winTimestamp := wt, topWins := 0, bottomWins := 0,
    currentLevel := 0, width := 375, height := 600, gapOffset := 200 }

/-- Start of the C2 trace: a single puck on the bottom half, aligned with the
level-1 gap, gliding upward at 60 units per frame, with no pending timer. -/
def trace0 : GameState :=
  { gameState := .playing, winner := none, pucks := [⟨0, 187.5, 390, 0, -60⟩],
    activeTouches := [], winTimestamp := none, topWins := 0, bottomWins := 0,
    currentLevel := 0, width := 375, height := 600, gapOffset := 200 }

/-- The C2 trace after the frame at `now = 100`: the top side is empty, so the
debounce timer was armed for 900. -/
def trace1 : GameState :=
  { trace0 with pucks := [⟨0, 187.5, 330, 0, -59.7⟩], winTimestamp := some 900 }

/-- The C2 trace after the frame at `now = 500`: the puck glided through the
gap onto the top half (so the zero-count side switched from top to bottom),
yet the pending timer survives. -/
def trace2 : GameState :=
  { trace1 with pucks := [⟨0, 187.5, 270.3, 0, -59.4015⟩] }

/-- The two uniqueness invariants of the session map: pointer identifiers are
pairwise distinct, and so are the referenced puck indices. -/
def TouchInv (s : GameState) : Prop :=
  (s.activeTouches.map Prod.fst).Nodup ∧
  (s.activeTouches.map fun kv => kv.2.puckIndex).Nodup

/-- A playing state whose first puck (index 0) sits just below the midline
and whose second puck (index 1) sits just above it, both within the pick
radius of the press point `(100, 299)` used in the C7 scenario. -/
def pressMismatchState : GameState :=
  { gameState := .playing, winner := none,
    pucks := [⟨0, 100, 301, 0, 0⟩, ⟨1, 100, 290, 2, 3⟩],
    activeTouches := [], winTimestamp := none, topWins := 0, bottomWins := 0,
    currentLevel := 0, width := 375, height := 600, gapOffset := 200 }

/-- A playing state with a single top-side puck near the press point
`(100, 299)`. -/
def pressMatchState : GameState :=
  { gameState := .playing, winner := none,
    pucks := [⟨0, 100, 290, 2, 3⟩],
    activeTouches := [], winTimestamp := none, topWins := 0, bottomWins := 0,
    currentLevel := 0, width := 375, height := 600, gapOffset := 200 }

/-- A playing state in which pointer 5 already holds a session on puck 0. -/
def pressTakenState : GameState :=
  { gameState := .playing, winner := none,
    pucks := [⟨0, 100, 290, 2, 3⟩],
    activeTouches := [(5, ⟨0, 100, 290, 100, 290, none, .top⟩)],
    winTimestamp := none, topWins := 0, bottomWins := 0,
    currentLevel := 0, width := 375, height := 600, gapOffset := 200 }

/-! ## Basic facts about the cap collision -/

theorem distOf_nonneg (p : Puck) (cx cy : ℝ) : 0 ≤ distOf p cx cy :=
  Real.sqrt_nonneg _

theorem safeDistOf_pos (p : Puck) (cx cy : ℝ) : (1e-6 : ℝ) ≤ safeDistOf p cx cy := by
  unfold safeDistOf
  split
  · linarith
  · exact le_rfl

/-- Helper: a cap whose center is at squared distance at least
`(r + PUCK_RADIUS)^2` from the puck leaves the puck unchanged. -/
theorem checkCapCollision_far {p : Puck} {cx cy r : ℝ}
    (h : r + PUCK_RADIUS ≤ distOf p cx cy) :
    checkCapCollision p cx cy r = p := by
  unfold checkCapCollision
  rw [if_neg (not_lt.mpr h)]

/-- Helper: derive farness from a bound on the squared distance. -/
theorem far_of_sq_le {p : Puck} {cx cy r : ℝ}
    (h : (r + PUCK_RADIUS) ^ 2 ≤ (p.x - cx) * (p.x - cx) + (p.y - cy) * (p.y - cy)) :
    r + PUCK_RADIUS ≤ distOf p cx cy := by
  unfold distOf
  exact Real.le_sqrt_of_sq_le h

/-! ## Claim C7: the press hit test -/

/-- Specification of `findClickedAux` when it returns an index: the index is
in range, its puck is unclaimed and within the pick radius, and every earlier
index from `n` on fails one of those two tests. -/
theorem findClickedAux_spec_some (ts : List (ℕ × Touch)) (x y : ℝ) :
    ∀ (ps : List Puck) (n i : ℕ), findClickedAux ts x y ps n = some i →
      n ≤ i ∧ i - n < ps.length ∧
      (∃ p, ps[i - n]? = some p ∧ ¬ isClaimed ts i ∧
        pressDist p x y < PUCK_RADIUS * 3) ∧
      (∀ j q, n ≤ j → j < i → ps[j - n]? = some q →
        isClaimed ts j ∨ ¬ pressDist q x y < PUCK_RADIUS * 3)
  | [], n, i => by simp [findClickedAux]
  | p :: rest, n, i => by
    intro h
    unfold findClickedAux at h
    split at h
    case isTrue hcond =>
      obtain rfl : n = i := Option.some.inj h
      refine ⟨le_rfl, by simp, ⟨p, by simp, hcond.1, hcond.2⟩, ?_⟩
      intro j q hnj hji
      exact absurd (lt_of_le_of_lt hnj hji) (lt_irrefl _)
    case isFalse hcond =>
      obtain ⟨hni, hlen, ⟨p1, hp1, hcl, hdist⟩, hmin⟩ :=
        findClickedAux_spec_some ts x y rest (n + 1) i h
      refine ⟨by omega, by simp only [List.length_cons]; omega,
        ⟨p1, ?_, hcl, hdist⟩, ?_⟩
      · have hidx : i - n = (i - (n + 1)) + 1 := by omega
        rw [hidx, List.getElem?_cons_succ]
        exact hp1
      · intro j q hnj hji hq
        rcases eq_or_lt_of_le hnj with rfl | hlt
        · rw [Nat.sub_self, List.getElem?_cons_zero] at hq
          obtain rfl : p = q := Option.some.inj hq
          rcases not_and_or.mp hcond with hc | hd
          · exact Or.inl (not_not.mp hc)
          · exact Or.inr hd
        · have hidx : j - n = (j - (n + 1)) + 1 := by omega
          rw [hidx, List.getElem?_cons_succ] at hq
          exact hmin j q (by omega) hji hq

/-! ## Claim C8: at most one session per puck and per pointer -/

/-- Helper: a failed lookup means the key is absent. -/
theorem lookupTouch_eq_none_not_mem {id : ℕ} :
    ∀ {ts : List (ℕ × Touch)}, lookupTouch id ts = none →
      id ∉ ts.map Prod.fst
  | [], _ => by simp
  | (k, t) :: rest, h => by
    unfold lookupTouch at h
    split at h
    · exact absurd h (by simp)
    · next hk =>
      simp only [List.map_cons, List.mem_cons]
      rintro (rfl | hmem)
      · exact hk rfl
      · exact lookupTouch_eq_none_not_mem h hmem

/-- Helper: `isClaimed` is membership in the puck-index projection. -/
theorem isClaimed_iff_mem (ts : List (ℕ × Touch)) (i : ℕ) :
    isClaimed ts i ↔ i ∈ ts.map fun kv => kv.2.puckIndex := by
  unfold isClaimed
  simp [eq_comm]

/-- Helper: replacing a value keeps the key projection. -/
theorem map_fst_setTouch (id : ℕ) (t : Touch) :
    ∀ ts : List (ℕ × Touch), (setTouch id t ts).map Prod.fst = ts.map Prod.fst
  | [] => rfl
  | (k, t0) :: rest => by
    unfold setTouch
    split
    · rfl
    · simp [map_fst_setTouch id t rest]

/-- Helper: replacing the value at a key with one of equal `puckIndex` keeps
the puck-index projection. -/
theorem map_pidx_setTouch {id : ℕ} {t1 t0 : Touch}
    (hpi : t1.puckIndex = t0.puckIndex) :
    ∀ {ts : List (ℕ × Touch)}, lookupTouch id ts = some t0 →
      ((setTouch id t1 ts).map fun kv => kv.2.puckIndex) =
        ts.map fun kv => kv.2.puckIndex
  | [], h => by simp [setTouch]
  | (k, u) :: rest, h => by
    unfold lookupTouch at h
    unfold setTouch
    split at h
    · next hk =>
      obtain rfl : u = t0 := Option.some.inj h
      rw [if_pos hk]
      simp [hpi]
    · next hk =>
      rw [if_neg hk]
      simp [map_pidx_setTouch hpi h]

/-- Helper: key distinctness survives a value replacement. -/
theorem nodup_fst_setTouch (id : ℕ) (t : Touch) (ts : List (ℕ × Touch))
    (h : (ts.map Prod.fst).Nodup) : ((setTouch id t ts).map Prod.fst).Nodup := by
  rw [map_fst_setTouch]
  exact h

/-- Helper: puck-index distinctness survives a value replacement that keeps
the puck index. -/
theorem nodup_pidx_setTouch (id : ℕ) (t1 : Touch) {ts : List (ℕ × Touch)}
    {t0 : Touch} (hl : lookupTouch id ts = some t0)
    (hpi : t1.puckIndex = t0.puckIndex)
    (h : (ts.map fun kv => kv.2.puckIndex).Nodup) :
    ((setTouch id t1 ts).map fun kv => kv.2.puckIndex).Nodup := by
  rw [map_pidx_setTouch hpi hl]
  exact h

/-- Helper: the fields `update` writes never include the session map. -/
theorem winCheck_activeTouches (s : GameState) (tc bc now : ℕ) :
    (winCheck s tc bc now).activeTouches = s.activeTouches := by
  unfold winCheck
  split
  · split
    · rfl
    · split <;> rfl
  · split
    · split
      · rfl
      · split <;> rfl
    · rfl

theorem update_activeTouches (s : GameState) (now : ℕ) :
    (update s now).activeTouches = s.activeTouches := by
  unfold update
  split
  · exact winCheck_activeTouches _ _ _ _
  · rfl

/-- Helper: `handleStart` preserves the session-map invariant. -/
theorem touchInv_handleStart (s : GameState) (x y : ℝ) (id : ℕ)
    (jit : ℕ → ℝ × ℝ) (h : TouchInv s) :
    TouchInv (handleStart s x y id jit) := by
  unfold handleStart
  split
  · exact ⟨by simp [startGame], by simp [startGame]⟩
  · split
    · exact h
    · rcases hfc : findClickedAux s.activeTouches x y s.pucks 0 with _ | i
      · simp only [hfc]
        exact h
      · simp only [hfc]
        rcases hp : s.pucks[i]? with _ | puck
        · simp only [hp]
          exact h
        · simp only [hp]
          split
          · obtain ⟨-, -, ⟨p1, -, hcl, -⟩, -⟩ :=
              findClickedAux_spec_some s.activeTouches x y s.pucks 0 i hfc
            refine ⟨?_, ?_⟩
            · simp only [List.map_cons, List.nodup_cons]
              refine ⟨?_, h.1⟩
              next hns _ =>
                exact lookupTouch_eq_none_not_mem
                  (Option.not_isSome_iff_eq_none.mp hns)
            · simp only [List.map_cons, List.nodup_cons]
              exact ⟨fun hmem => hcl ((isClaimed_iff_mem _ _).mpr hmem), h.2⟩
          · exact h

/-- Helper: `handleMove` preserves the session-map invariant. -/
theorem touchInv_handleMove (s : GameState) (x y : ℝ) (id : ℕ)
    (h : TouchInv s) : TouchInv (handleMove s x y id) := by
  unfold handleMove
  rcases ht : lookupTouch id s.activeTouches with _ | touch
  · simp only [ht]
    exact h
  · simp only [ht]
    rcases hp : s.pucks[touch.puckIndex]? with _ | puck
    · simp only [hp]
      exact h
    · simp only [hp]
      cases hside : touch.side
      · simp only [hside]
        refine ⟨nodup_fst_setTouch id _ _ h.1, nodup_pidx_setTouch id _ ht ?_ h.2⟩
        rfl
      · simp only [hside]
        refine ⟨nodup_fst_setTouch id _ _ h.1, nodup_pidx_setTouch id _ ht ?_ h.2⟩
        rfl

/-- Helper: `handleEnd` preserves the session-map invariant. -/
theorem touchInv_handleEnd (s : GameState) (id : ℕ)
    (h : TouchInv s) : TouchInv (handleEnd s id) := by
  have hrm : ∀ ts : List (ℕ × Touch),
      (ts.map Prod.fst).Nodup ∧ (ts.map fun kv => kv.2.puckIndex).Nodup →
      ((removeTouch id ts).map Prod.fst).Nodup ∧
        ((removeTouch id ts).map fun kv => kv.2.puckIndex).Nodup := by
    intro ts hts
    have hsub : List.Sublist (removeTouch id ts) ts := List.filter_sublist _
    exact ⟨hts.1.sublist (hsub.map _), hts.2.sublist (hsub.map _)⟩
  unfold handleEnd
  rcases ht : lookupTouch id s.activeTouches with _ | touch
  · simp only [ht]
    exact h
  · simp only [ht]
    rcases hp : s.pucks[touch.puckIndex]? with _ | puck
    · simp only [hp]
      exact hrm _ h
    · simp only [hp]
      rcases ha : touch.anchor with _ | a
      · simp only [ha]
        exact hrm _ h
      · simp only [ha]
        exact hrm _ h

/-- Helper: every event preserves the session-map invariant. -/
theorem touchInv_stepEv (s : GameState) (e : Ev) (h : TouchInv s) :
    TouchInv (stepEv s e) := by
  cases e with
  | press x y id jit => exact touchInv_handleStart s x y id jit h
  | move x y id => exact touchInv_handleMove s x y id h
  | release id => exact touchInv_handleEnd s id h
  | cancel id => exact touchInv_handleEnd s id h
  | frame now =>
    unfold stepEv
    unfold TouchInv
    rw [update_activeTouches]
    exact h

/-- Helper: `run` preserves the session-map invariant. -/
theorem touchInv_run : ∀ (evs : List Ev) (s : GameState),
    TouchInv s → TouchInv (run s evs)
  | [], _, h => h
  | e :: rest, s, h => touchInv_run rest (stepEv s e) (touchInv_stepEv s e h)

/-- Claim C8: starting from any state whose session map satisfies the
uniqueness invariants (e.g. the initial empty map), every sequence of press,
move, release, cancel and frame events preserves them: at most one active
session references any given puck index, and any pointer identifier owns at
most one session.  Moreover a second press for an already-active pointer
identifier leaves the state untouched (and a press on an already-claimed puck
creates no session, since the hit test skips claimed pucks — see the C7
theorem's search characterization). -/
theorem session_map_invariant (s : GameState) (evs : List Ev)
    (h : TouchInv s) :
    TouchInv (run s evs) ∧
    (∀ (x y : ℝ) (id : ℕ) (jit : ℕ → ℝ × ℝ), s.gameState = .playing →
      (lookupTouch id s.activeTouches).isSome = true →
      handleStart s x y id jit = s) := by
  refine ⟨touchInv_run evs s h, ?_⟩
  intro x y id jit hplay hsome
  unfold handleStart
  rw [if_neg (by simp [hplay]), if_pos hsome]

/-- Witness for C8: one session-creating press preserves the invariant, and a
second press with the already-active pointer 5 changes nothing. -/
theorem session_map_invariant_witness :
    TouchInv (run pressMatchState [.press 100 299 7 (fun _ => (0, 0))]) ∧
    handleStart pressTakenState 1 2 5 (fun _ => (0, 0)) = pressTakenState :=
  ⟨(session_map_invariant pressMatchState [.press 100 299 7 (fun _ => (0, 0))]
      (by simp [TouchInv, pressMatchState])).1,
    (session_map_invariant pressTakenState []
      (by simp [TouchInv, pressTakenState])).2 1 2 5 (fun _ => (0, 0)) rfl rfl⟩

/-- Counterexample for C7 as stated: press at `(100, 299)` (top side).  The
first unclaimed in-radius puck (index 0, at `(100, 301)`, distance 2) is on
the bottom side, so the source bails out without falling back to puck 1 — even
though puck 1 (at `(100, 290)`, distance 9) is unclaimed, in radius, and on
the press point's side.  The claim would have puck 1 claimed; the code claims
nothing: the state is returned unchanged, with no session created. -/
theorem handleStart_hit_test_counterexample :
    handleStart pressMismatchState 100 299 7 (fun _ => (0, 0)) = pressMismatchState ∧
    pressMismatchState.activeTouches = [] ∧
    ¬ isClaimed pressMismatchState.activeTouches 1 ∧
    pressDist ⟨1, 100, 290, 2, 3⟩ 100 299 < PUCK_RADIUS * 3 ∧
    ((299 : ℝ) < pressMismatchState.height / 2 ↔
      (Puck.mk 1 100 290 2 3).y < pressMismatchState.height / 2) ∧
    pressMismatchState.pucks[1]? = some ⟨1, 100, 290, 2, 3⟩ := by
  have hd0 : pressDist (⟨0, 100, 301, 0, 0⟩ : Puck) 100 299 < PUCK_RADIUS * 3 := by
    unfold pressDist PUCK_RADIUS
    rw [show ((100 : ℝ) - 100) * (100 - 100) + (301 - 299) * (301 - 299) = 2 ^ 2 by
      norm_num, Real.sqrt_sq (by norm_num)]
    norm_num
  have hfc : findClickedAux [] 100 299 pressMismatchState.pucks 0 = some 0 := by
    unfold pressMismatchState findClickedAux
    rw [if_pos ⟨by simp [isClaimed], hd0⟩]
  refine ⟨?_, rfl, by simp [isClaimed, pressMismatchState], ?_, ?_, rfl⟩
  · unfold handleStart
    rw [if_neg (by simp [pressMismatchState])]
    rw [if_neg (by simp [pressMismatchState, lookupTouch])]
    have hfc2 : findClickedAux pressMismatchState.activeTouches 100 299
        pressMismatchState.pucks 0 = some 0 := hfc
    have hp0 : pressMismatchState.pucks[0]? = some ⟨0, 100, 301, 0, 0⟩ := rfl
    simp only [hfc2, hp0]
    rw [if_neg (by unfold pressMismatchState; norm_num)]
  · unfold pressDist PUCK_RADIUS
    rw [show ((100 : ℝ) - 100) * (100 - 100) + (290 - 299) * (290 - 299) = 9 ^ 2 by
      norm_num, Real.sqrt_sq (by norm_num)]
    norm_num
  · unfold pressMismatchState
    norm_num

/-- Claim C7 amended: while playing, with a fresh pointer identifier, the
candidate puck is the first puck that is unclaimed and within the pick radius
`3 * PUCK_RADIUS` — the press point's side plays no part in the search.  Only
afterwards is the candidate's side compared with the press side: on agreement
a session for the pointer is created and the candidate's velocity is zeroed;
on disagreement nothing at all happens (no later side-matching puck is
considered).  If the search finds nothing, nothing happens. -/
theorem handleStart_hit_test (s : GameState) (x y : ℝ) (id : ℕ) (jit : ℕ → ℝ × ℝ)
    (hplay : s.gameState = .playing)
    (hid : lookupTouch id s.activeTouches = none) :
    (findClickedAux s.activeTouches x y s.pucks 0 = none →
      handleStart s x y id jit = s) ∧
    (∀ i p, findClickedAux s.activeTouches x y s.pucks 0 = some i →
      s.pucks[i]? = some p →
      (¬ isClaimed s.activeTouches i ∧ pressDist p x y < PUCK_RADIUS * 3 ∧
        ∀ j q, j < i → s.pucks[j]? = some q →
          isClaimed s.activeTouches j ∨ ¬ pressDist q x y < PUCK_RADIUS * 3) ∧
      ((y < s.height / 2 ↔ p.y < s.height / 2) →
        (handleStart s x y id jit).activeTouches =
          (id, ⟨i, x, y, x, y, none,
            if y < s.height / 2 then Side.top else Side.bottom⟩) ::
            s.activeTouches ∧
        (handleStart s x y id jit).pucks =
          s.pucks.set i { p with vx := 0, vy := 0 }) ∧
      (¬ (y < s.height / 2 ↔ p.y < s.height / 2) →
        handleStart s x y id jit = s)) := by
  have hnp : ¬ s.gameState ≠ GState.playing := by simp [hplay]
  have hsome : (lookupTouch id s.activeTouches).isSome = false := by
    simp [hid]
  constructor
  · intro hfc
    unfold handleStart
    rw [if_neg hnp, if_neg (by simp [hsome]), hfc]
  · intro i p hfc hp
    obtain ⟨-, -, ⟨p1, hp1, hcl, hdist⟩, hmin⟩ :=
      findClickedAux_spec_some s.activeTouches x y s.pucks 0 i hfc
    rw [Nat.sub_zero] at hp1
    obtain rfl : p1 = p := by rw [hp1] at hp; exact Option.some.inj hp
    refine ⟨⟨hcl, hdist, ?_⟩, ?_, ?_⟩
    · intro j q hji hq
      exact hmin j q (Nat.zero_le j) hji (by rwa [Nat.sub_zero])
    · intro hside
      unfold handleStart
      rw [if_neg hnp, if_neg (by simp [hsome])]
      simp only [hfc, hp]
      rw [if_pos hside]
      exact ⟨rfl, rfl⟩
    · intro hside
      unfold handleStart
      rw [if_neg hnp, if_neg (by simp [hsome])]
      simp only [hfc, hp]
      rw [if_neg hside]

/-- Witness for C7's amended theorem: the press `(100, 299)` on a state with
one unclaimed top-side puck creates a session for pointer 7 claiming puck 0
and zeroes its velocity. -/
theorem handleStart_hit_test_witness :
    (handleStart pressMatchState 100 299 7 (fun _ => (0, 0))).activeTouches =
      [(7, ⟨0, 100, 299, 100, 299, none, Side.top⟩)] ∧
    (handleStart pressMatchState 100 299 7 (fun _ => (0, 0))).pucks =
      [⟨0, 100, 290, 0, 0⟩] := by
  have hd0 : pressDist (⟨0, 100, 290, 2, 3⟩ : Puck) 100 299 < PUCK_RADIUS * 3 := by
    unfold pressDist PUCK_RADIUS
    rw [show ((100 : ℝ) - 100) * (100 - 100) + (290 - 299) * (290 - 299) = 9 ^ 2 by
      norm_num, Real.sqrt_sq (by norm_num)]
    norm_num
  have hfc : findClickedAux pressMatchState.activeTouches 100 299
      pressMatchState.pucks 0 = some 0 := by
    unfold pressMatchState findClickedAux
    rw [if_pos ⟨by simp [isClaimed], hd0⟩]
  have hside : ((299 : ℝ) < pressMatchState.height / 2 ↔
      (Puck.mk 0 100 290 2 3).y < pressMatchState.height / 2) := by
    unfold pressMatchState
    norm_num
  obtain ⟨hmk, hpk⟩ := ((handleStart_hit_test pressMatchState 100 299 7
    (fun _ => (0, 0)) rfl rfl).2 0 ⟨0, 100, 290, 2, 3⟩ hfc rfl).2.1 hside
  constructor
  · rw [hmk, if_pos (show (299 : ℝ) < pressMatchState.height / 2 by
      unfold pressMatchState; norm_num)]
    rfl
  · rw [hpk]
    rfl

/-! ## Frame evaluation on single-puck level-1 states

These helpers evaluate one physics frame for a lone puck that is horizontally
centered in the level-1 gap (`x = 187.5` on a 375-wide arena), so that no
boundary, wall, cap or pair collision fires, and the frame reduces to plain
integration plus friction. -/

/-- A puck strictly inside all four boundaries is not bounced. -/
theorem boundaryCollide_inside (w h : ℝ) (p : Puck)
    (h1 : ¬ p.x - PUCK_RADIUS < 0) (h2 : ¬ p.x + PUCK_RADIUS > w)
    (h3 : ¬ p.y - PUCK_RADIUS < 0) (h4 : ¬ p.y + PUCK_RADIUS > h) :
    boundaryCollide w h p = p := by
  simp only [boundaryCollide]
  rw [if_neg h1, if_neg h2, if_neg h3, if_neg h4]

/-- A puck horizontally outside a segment's span is not bounced by its
rectangular part. -/
theorem wallCollide_out_of_span (wallY halfWallThick : ℝ) (p : Puck)
    (seg : Segment) (hx : ¬ (p.x ≥ seg.start ∧ p.x ≤ seg.«end»)) :
    wallCollide wallY halfWallThick p seg = p := by
  unfold wallCollide
  rw [if_neg hx]
  simp

/-- A segment whose span misses the puck and whose two caps are far away
leaves the puck unchanged. -/
theorem segmentCollide_noop (w wallY halfWallThick : ℝ) (p : Puck)
    (seg : Segment) (hx : ¬ (p.x ≥ seg.start ∧ p.x ≤ seg.«end»))
    (hcap1 : halfWallThick + PUCK_RADIUS ≤ distOf p seg.start wallY)
    (hcap2 : halfWallThick + PUCK_RADIUS ≤ distOf p seg.«end» wallY) :
    segmentCollide w wallY halfWallThick p seg = p := by
  simp only [segmentCollide]
  rw [wallCollide_out_of_span wallY halfWallThick p seg hx]
  split
  · split
    · rw [checkCapCollision_far hcap1, checkCapCollision_far hcap2]
    · rw [checkCapCollision_far hcap2]
  · split
    · rw [checkCapCollision_far hcap1]
    · rfl

/-- The level-1 wall layout on a 375-wide arena. -/
theorem walls_L1 (now : ℕ) (g : ℝ) :
    getWallSegments 0 375 now g = [⟨0, 137.5⟩, ⟨237.5, 375⟩] := by
  unfold getWallSegments HOLE_WIDTH
  norm_num [Segment.mk.injEq]

/-- Level 1 has no obstacles. -/
theorem getObstacles_L0 (w h : ℝ) : getObstacles 0 w h = [] := rfl

/-- One sub-step for the lone mid-gap puck is pure integration. -/
theorem substep_single (idp : ℕ) (y vy y1 : ℝ)
    (hy1 : y1 = y + vy / 5) (hlo : 15 ≤ y1) (hhi : y1 ≤ 585) :
    substep 375 600 [⟨0, 137.5⟩, ⟨237.5, 375⟩] [] []
      [⟨idp, 187.5, y, 0, vy⟩] = [⟨idp, 187.5, y1, 0, vy⟩] := by
  subst hy1
  have hint : integrate 5 ⟨idp, 187.5, y, 0, vy⟩ =
      ⟨idp, 187.5, y + vy / 5, 0, vy⟩ := by
    unfold integrate
    norm_num [Puck.mk.injEq]
  have hbnd : boundaryCollide 375 600 ⟨idp, 187.5, y + vy / 5, 0, vy⟩ =
      ⟨idp, 187.5, y + vy / 5, 0, vy⟩ := by
    refine boundaryCollide_inside 375 600 _ ?_ ?_ ?_ ?_ <;>
      simp only [PUCK_RADIUS] <;> intro hcon <;> linarith
  have hseg1 : segmentCollide 375 (600 / 2) (WALL_THICKNESS / 2)
      ⟨idp, 187.5, y + vy / 5, 0, vy⟩ ⟨0, 137.5⟩ =
      ⟨idp, 187.5, y + vy / 5, 0, vy⟩ := by
    refine segmentCollide_noop 375 (600 / 2) (WALL_THICKNESS / 2) _ _ ?_ ?_ ?_
    · intro hcon
      have := hcon.2
      norm_num at this
    · refine far_of_sq_le ?_
      unfold WALL_THICKNESS PUCK_RADIUS
      nlinarith [mul_self_nonneg ((⟨idp, 187.5, y + vy / 5, 0, vy⟩ : Puck).y - 600 / 2)]
    · refine far_of_sq_le ?_
      unfold WALL_THICKNESS PUCK_RADIUS
      nlinarith [mul_self_nonneg ((⟨idp, 187.5, y + vy / 5, 0, vy⟩ : Puck).y - 600 / 2)]
  have hseg2 : segmentCollide 375 (600 / 2) (WALL_THICKNESS / 2)
      ⟨idp, 187.5, y + vy / 5, 0, vy⟩ ⟨237.5, 375⟩ =
      ⟨idp, 187.5, y + vy / 5, 0, vy⟩ := by
    refine segmentCollide_noop 375 (600 / 2) (WALL_THICKNESS / 2) _ _ ?_ ?_ ?_
    · intro hcon
      have := hcon.1
      norm_num at this
    · refine far_of_sq_le ?_
      unfold WALL_THICKNESS PUCK_RADIUS
      nlinarith [mul_self_nonneg ((⟨idp, 187.5, y + vy / 5, 0, vy⟩ : Puck).y - 600 / 2)]
    · refine far_of_sq_le ?_
      unfold WALL_THICKNESS PUCK_RADIUS
      nlinarith [mul_self_nonneg ((⟨idp, 187.5, y + vy / 5, 0, vy⟩ : Puck).y - 600 / 2)]
  unfold substep
  rw [show List.range ([(⟨idp, 187.5, y, 0, vy⟩ : Puck)]).length = [0] from rfl]
  simp only [List.foldl_cons, List.foldl_nil]
  unfold substepOne
  rw [if_neg (show ¬ isClaimed [] 0 by simp [isClaimed])]
  simp only [List.getElem?_cons_zero]
  rw [hint, hbnd]
  simp only [List.foldl_cons, List.foldl_nil]
  rw [hseg1, hseg2]
  rfl

/-- A whole frame's physics for the lone mid-gap puck: each of the five
sub-steps advances `y` by `vy / 5`, and friction scales the velocity once. -/
theorem stepPucks_single (s : GameState) (now : ℕ) (idp : ℕ)
    (y vy a b c d e vf : ℝ)
    (hs : s.pucks = [⟨idp, 187.5, y, 0, vy⟩])
    (hw : s.width = 375) (hh : s.height = 600) (hl : s.currentLevel = 0)
    (hg : s.gapOffset = 200) (hat : s.activeTouches = [])
    (ha : a = y + vy / 5) (hloa : 15 ≤ a) (hhia : a ≤ 585)
    (hb : b = a + vy / 5) (hlob : 15 ≤ b) (hhib : b ≤ 585)
    (hc : c = b + vy / 5) (hloc : 15 ≤ c) (hhic : c ≤ 585)
    (hd : d = c + vy / 5) (hlod : 15 ≤ d) (hhid : d ≤ 585)
    (he : e = d + vy / 5) (hloe : 15 ≤ e) (hhie : e ≤ 585)
    (hf : vf = vy * FRICTION) :
    stepPucks s now = [⟨idp, 187.5, e, 0, vf⟩] := by
  unfold stepPucks
  simp only [hs, hw, hh, hl, hg, hat, walls_L1, getObstacles_L0]
  rw [show List.range 5 = [0, 1, 2, 3, 4] from rfl]
  simp only [List.foldl_cons, List.foldl_nil]
  rw [substep_single idp y vy a ha hloa hhia,
    substep_single idp a vy b hb hlob hhib,
    substep_single idp b vy c hc hloc hhic,
    substep_single idp c vy d hd hlod hhid,
    substep_single idp d vy e he hloe hhie]
  simp [applyFriction, isClaimed, hf, Puck.mk.injEq]

/-- Frame physics of `oneBottomPuck`: the stationary puck does not move. -/
theorem stepPucks_oneBottom (wt : Option ℕ) (now : ℕ) :
    stepPucks (oneBottomPuck wt) now = [⟨0, 187.5, 450, 0, 0⟩] :=
  stepPucks_single (oneBottomPuck wt) now 0 450 0 450 450 450 450 450 0
    rfl rfl rfl rfl rfl rfl
    (by norm_num) (by norm_num) (by norm_num)
    (by norm_num) (by norm_num) (by norm_num)
    (by norm_num) (by norm_num) (by norm_num)
    (by norm_num) (by norm_num) (by norm_num)
    (by norm_num) (by norm_num) (by norm_num)
    (by norm_num [FRICTION])

/-- Frame physics of `oneTopPuck`: the stationary puck does not move. -/
theorem stepPucks_oneTop (wt : Option ℕ) (now : ℕ) :
    stepPucks (oneTopPuck wt) now = [⟨0, 187.5, 150, 0, 0⟩] :=
  stepPucks_single (oneTopPuck wt) now 0 150 0 150 150 150 150 150 0
    rfl rfl rfl rfl rfl rfl
    (by norm_num) (by norm_num) (by norm_num)
    (by norm_num) (by norm_num) (by norm_num)
    (by norm_num) (by norm_num) (by norm_num)
    (by norm_num) (by norm_num) (by norm_num)
    (by norm_num) (by norm_num) (by norm_num)
    (by norm_num [FRICTION])

/-- Frame physics of `trace0`: the puck glides from 390 to 330 and friction
scales the velocity to `-59.7`. -/
theorem stepPucks_trace0 (now : ℕ) :
    stepPucks trace0 now = [⟨0, 187.5, 330, 0, -59.7⟩] :=
  stepPucks_single trace0 now 0 390 (-60) 378 366 354 342 330 (-59.7)
    rfl rfl rfl rfl rfl rfl
    (by norm_num) (by norm_num) (by norm_num)
    (by norm_num) (by norm_num) (by norm_num)
    (by norm_num) (by norm_num) (by norm_num)
    (by norm_num) (by norm_num) (by norm_num)
    (by norm_num) (by norm_num) (by norm_num)
    (by norm_num [FRICTION])

/-- Frame physics of `trace1`: the puck glides from 330 through the gap to
270.3 — crossing the midline — and friction scales the velocity. -/
theorem stepPucks_trace1 (now : ℕ) :
    stepPucks trace1 now = [⟨0, 187.5, 270.3, 0, -59.4015⟩] :=
  stepPucks_single trace1 now 0 330 (-59.7) 318.06 306.12 294.18 282.24 270.3
    (-59.4015)
    rfl rfl rfl rfl rfl rfl
    (by norm_num) (by norm_num) (by norm_num)
    (by norm_num) (by norm_num) (by norm_num)
    (by norm_num) (by norm_num) (by norm_num)
    (by norm_num) (by norm_num) (by norm_num)
    (by norm_num) (by norm_num) (by norm_num)
    (by norm_num [FRICTION])

/-- Frame physics of `trace2`: the puck keeps gliding up the top half. -/
theorem stepPucks_trace2 (now : ℕ) :
    stepPucks trace2 now = [⟨0, 187.5, 210.8985, 0, -59.1044925⟩] :=
  stepPucks_single trace2 now 0 270.3 (-59.4015) 258.4197 246.5394 234.6591
    222.7788 210.8985 (-59.1044925)
    rfl rfl rfl rfl rfl rfl
    (by norm_num) (by norm_num) (by norm_num)
    (by norm_num) (by norm_num) (by norm_num)
    (by norm_num) (by norm_num) (by norm_num)
    (by norm_num) (by norm_num) (by norm_num)
    (by norm_num) (by norm_num) (by norm_num)
    (by norm_num [FRICTION])

/-- Counting a one-puck roster: the puck is on top iff `y < h / 2`. -/
theorem topCountOf_single_notTop (idp : ℕ) (x y vx vy h : ℝ)
    (hy : ¬ y < h / 2) : topCountOf [⟨idp, x, y, vx, vy⟩] h = 0 := by
  unfold topCountOf
  rw [List.countP_cons, List.countP_nil]
  simp [hy]

theorem topCountOf_single_top (idp : ℕ) (x y vx vy h : ℝ)
    (hy : y < h / 2) : topCountOf [⟨idp, x, y, vx, vy⟩] h = 1 := by
  unfold topCountOf
  rw [List.countP_cons, List.countP_nil]
  simp [hy]

theorem bottomCountOf_single_top (idp : ℕ) (x y vx vy h : ℝ)
    (hy : y < h / 2) : bottomCountOf [⟨idp, x, y, vx, vy⟩] h = 0 := by
  unfold bottomCountOf
  rw [List.countP_cons, List.countP_nil]
  simp [hy]

/-! ## Claim C1: the win transition and the win counters -/

set_option maxHeartbeats 1000000 in
/-- Claim C1 amended: on a frame in which a side's post-step puck count is
zero while a pending debounce timestamp lies strictly in the past, the match
transitions to `won`, `winner` is set to the *emptied* side, and that same
side's own win counter is incremented (emptying the top half is how the top
player wins: `topCount === 0` leads to `winner = "top"` and `topWins++`).
The opposing side's counter is untouched. -/
theorem win_transition (s : GameState) (now wt : ℕ)
    (hplay : s.gameState = .playing) :
    (topCountOf (stepPucks s now) s.height = 0 →
      s.winTimestamp = some wt → wt < now →
      update s now = { s with
        pucks := stepPucks s now,
        gameState := GState.won, winner := some Side.top,
        topWins := s.topWins + 1 }) ∧
    (topCountOf (stepPucks s now) s.height ≠ 0 →
      bottomCountOf (stepPucks s now) s.height = 0 →
      s.winTimestamp = some wt → wt < now →
      update s now = { s with
        pucks := stepPucks s now,
        gameState := GState.won, winner := some Side.bottom,
        bottomWins := s.bottomWins + 1 }) := by
  constructor
  · intro htc hwt hlt
    simp only [update]
    rw [if_pos hplay]
    simp only [winCheck]
    rw [if_pos htc]
    simp only [hwt]
    rw [if_pos hlt]
  · intro htc hbc hwt hlt
    simp only [update]
    rw [if_pos hplay]
    simp only [winCheck]
    rw [if_neg htc, if_pos hbc]
    simp only [hwt]
    rw [if_pos hlt]

set_option maxHeartbeats 1000000 in
/-- Counterexample for C1 as stated: with the bottom-half-only roster of
`oneBottomPuck` the top side's count is zero and the timer (1000) has elapsed
at `now = 2000`; the frame transitions to `won` — but it is the *top* side's
win counter that is incremented, not the bottom side's as the claim demands.
-/
theorem win_counter_counterexample :
    topCountOf (stepPucks (oneBottomPuck (some 1000)) 2000)
      (oneBottomPuck (some 1000)).height = 0 ∧
    (oneBottomPuck (some 1000)).winTimestamp = some 1000 ∧
    (update (oneBottomPuck (some 1000)) 2000).gameState = .won ∧
    (update (oneBottomPuck (some 1000)) 2000).winner = some .top ∧
    (update (oneBottomPuck (some 1000)) 2000).topWins =
      (oneBottomPuck (some 1000)).topWins + 1 ∧
    (update (oneBottomPuck (some 1000)) 2000).bottomWins =
      (oneBottomPuck (some 1000)).bottomWins := by
  have hstep := stepPucks_oneBottom (some 1000) 2000
  have htc : topCountOf (stepPucks (oneBottomPuck (some 1000)) 2000)
      (oneBottomPuck (some 1000)).height = 0 := by
    rw [hstep]
    exact topCountOf_single_notTop 0 187.5 450 0 0 _ (by norm_num [oneBottomPuck])
  have hupd : update (oneBottomPuck (some 1000)) 2000 =
      { oneBottomPuck (some 1000) with
        pucks := [⟨0, 187.5, 450, 0, 0⟩],
        gameState := GState.won, winner := some Side.top, topWins := 1 } := by
    simp only [update]
    rw [if_pos (show (oneBottomPuck (some 1000)).gameState = GState.playing from rfl)]
    simp only [winCheck, hstep]
    rw [if_pos (by rw [hstep] at htc; exact htc)]
    simp only [show (oneBottomPuck (some 1000)).winTimestamp = some 1000 from rfl]
    rw [if_pos (by norm_num)]
    rfl
  rw [hupd]
  exact ⟨htc, rfl, rfl, rfl, rfl, rfl⟩

/-- Witness for C1's amended theorem at the concrete state. -/
theorem win_transition_witness :
    update (oneBottomPuck (some 1000)) 2000 =
      { oneBottomPuck (some 1000) with
        pucks := stepPucks (oneBottomPuck (some 1000)) 2000,
        gameState := GState.won, winner := some Side.top,
        topWins := (oneBottomPuck (some 1000)).topWins + 1 } :=
  (win_transition (oneBottomPuck (some 1000)) 2000 1000 rfl).1
    (by rw [stepPucks_oneBottom]
        exact topCountOf_single_notTop 0 187.5 450 0 0 _ (by norm_num [oneBottomPuck]))
    rfl (by norm_num)

/-! ## Claim C2: the debounce timer -/

set_option maxHeartbeats 1000000 in
/-- Claim C2 amended: the debounce behaves as follows.  (i) When a side's
post-step count is zero and no timestamp is pending, the frame merely arms the
timer at `now + 800` and stays `playing` — so a win is always at least 800ms
after the timer was armed.  (ii) While a pending timer has not elapsed the
match stays `playing`.  (iii) The timer is cleared exactly when *both* sides
are non-empty.  (iv) A transition to `won` happens only on a frame with a
pending, strictly elapsed timer.  (v) But the timer is *not* cleared when the
zero-count condition merely switches sides: a pending (possibly elapsed)
timestamp armed by the top side is honoured for the bottom side, which can
therefore win fewer than 800ms after its own condition began. -/
theorem win_debounce (s : GameState) (now : ℕ)
    (hplay : s.gameState = .playing) :
    ((topCountOf (stepPucks s now) s.height = 0 ∨
        bottomCountOf (stepPucks s now) s.height = 0) →
      s.winTimestamp = none →
      update s now = { s with
        pucks := stepPucks s now,
        winTimestamp := some (now + 800) }) ∧
    (∀ wt, s.winTimestamp = some wt → now ≤ wt →
      (update s now).gameState = .playing) ∧
    (topCountOf (stepPucks s now) s.height ≠ 0 →
      bottomCountOf (stepPucks s now) s.height ≠ 0 →
      update s now = { s with
        pucks := stepPucks s now,
        winTimestamp := none }) ∧
    ((update s now).gameState = .won →
      ∃ wt, s.winTimestamp = some wt ∧ wt < now) ∧
    (∀ wt, s.winTimestamp = some wt → wt < now →
      topCountOf (stepPucks s now) s.height ≠ 0 →
      bottomCountOf (stepPucks s now) s.height = 0 →
      update s now = { s with
        pucks := stepPucks s now,
        gameState := GState.won, winner := some Side.bottom,
        bottomWins := s.bottomWins + 1 }) := by
  refine ⟨?_, ?_, ?_, ?_, ?_⟩
  · intro hzero hwt
    simp only [update]
    rw [if_pos hplay]
    simp only [winCheck]
    rcases hzero with htc | hbc
    · rw [if_pos htc]
      simp only [hwt]
    · by_cases htc : topCountOf (stepPucks s now) s.height = 0
      · rw [if_pos htc]
        simp only [hwt]
      · rw [if_neg htc, if_pos hbc]
        simp only [hwt]
  · intro wt hwt hle
    simp only [update]
    rw [if_pos hplay]
    simp only [winCheck]
    by_cases htc : topCountOf (stepPucks s now) s.height = 0
    · rw [if_pos htc]
      simp only [hwt]
      rw [if_neg (by omega)]
      exact hplay
    · rw [if_neg htc]
      by_cases hbc : bottomCountOf (stepPucks s now) s.height = 0
      · rw [if_pos hbc]
        simp only [hwt]
        rw [if_neg (by omega)]
        exact hplay
      · rw [if_neg hbc]
        exact hplay
  · intro htc hbc
    simp only [update]
    rw [if_pos hplay]
    simp only [winCheck]
    rw [if_neg htc, if_neg hbc]
  · intro hwon
    simp only [update] at hwon
    rw [if_pos hplay] at hwon
    simp only [winCheck] at hwon
    by_cases htc : topCountOf (stepPucks s now) s.height = 0
    · rw [if_pos htc] at hwon
      rcases hwt : s.winTimestamp with _ | wt
      · simp only [hwt] at hwon
        rw [hplay] at hwon
        exact absurd hwon (by simp)
      · simp only [hwt] at hwon
        by_cases hnw : now > wt
        · exact ⟨wt, rfl, hnw⟩
        · rw [if_neg hnw] at hwon
          rw [hplay] at hwon
          exact absurd hwon (by simp)
    · rw [if_neg htc] at hwon
      by_cases hbc : bottomCountOf (stepPucks s now) s.height = 0
      · rw [if_pos hbc] at hwon
        rcases hwt : s.winTimestamp with _ | wt
        · simp only [hwt] at hwon
          rw [hplay] at hwon
          exact absurd hwon (by simp)
        · simp only [hwt] at hwon
          by_cases hnw : now > wt
          · exact ⟨wt, rfl, hnw⟩
          · rw [if_neg hnw] at hwon
            rw [hplay] at hwon
            exact absurd hwon (by simp)
      · rw [if_neg hbc] at hwon
        rw [hplay] at hwon
        exact absurd hwon (by simp)
  · intro wt hwt hlt htc hbc
    simp only [update]
    rw [if_pos hplay]
    simp only [winCheck]
    rw [if_neg htc, if_pos hbc]
    simp only [hwt]
    rw [if_pos hlt]

set_option maxHeartbeats 1000000 in
/-- Counterexample for C2 as stated: a three-frame execution.  At `now = 100`
the lone puck is on the bottom half, so the top side is empty and the timer is
armed for 900.  By `now = 500` — before the delay elapsed — the puck has
glided through the gap onto the top half, so the zero-count condition has been
lost by the top side (a puck re-entered it) and now holds for the bottom side.
The claim requires the timer to be cleared and the match to stay `playing`
indefinitely; instead the pending timestamp 900 survives the switch, and at
`now = 1000` the match is `won` by `bottom`, whose own zero-count condition
has held for at most 500ms < 800ms. -/
theorem debounce_side_switch_counterexample :
    update trace0 100 = trace1 ∧
    topCountOf trace1.pucks trace1.height = 0 ∧
    update trace1 500 = trace2 ∧
    topCountOf trace2.pucks trace2.height = 1 ∧
    bottomCountOf trace2.pucks trace2.height = 0 ∧
    trace2.winTimestamp = some 900 ∧
    trace2.gameState = .playing ∧
    (update trace2 1000).gameState = .won ∧
    (update trace2 1000).winner = some .bottom := by
  have h01 : update trace0 100 = trace1 := by
    simp only [update]
    rw [if_pos (show trace0.gameState = GState.playing from rfl)]
    simp only [winCheck, stepPucks_trace0]
    rw [if_pos (topCountOf_single_notTop 0 187.5 330 0 (-59.7) _
      (by norm_num [trace0]))]
    simp only [show trace0.winTimestamp = none from rfl]
    rfl
  have h12 : update trace1 500 = trace2 := by
    simp only [update]
    rw [if_pos (show trace1.gameState = GState.playing from rfl)]
    simp only [winCheck, stepPucks_trace1]
    rw [if_neg (by
      rw [topCountOf_single_top 0 187.5 270.3 0 (-59.4015) _
        (by norm_num [trace1, trace0])]
      norm_num)]
    rw [if_pos (bottomCountOf_single_top 0 187.5 270.3 0 (-59.4015) _
      (by norm_num [trace1, trace0]))]
    simp only [show trace1.winTimestamp = some 900 from rfl]
    rw [if_neg (by norm_num)]
    rfl
  have h23top : (update trace2 1000).gameState = .won ∧
      (update trace2 1000).winner = some .bottom := by
    have : update trace2 1000 =
        { trace2 with
          pucks := [⟨0, 187.5, 210.8985, 0, -59.1044925⟩],
          gameState := GState.won, winner := some Side.bottom,
          bottomWins := trace2.bottomWins + 1 } := by
      simp only [update]
      rw [if_pos (show trace2.gameState = GState.playing from rfl)]
      simp only [winCheck, stepPucks_trace2]
      rw [if_neg (by
        rw [topCountOf_single_top 0 187.5 210.8985 0 (-59.1044925) _
          (by norm_num [trace2, trace1, trace0])]
        norm_num)]
      rw [if_pos (bottomCountOf_single_top 0 187.5 210.8985 0 (-59.1044925) _
        (by norm_num [trace2, trace1, trace0]))]
      simp only [show trace2.winTimestamp = some 900 from rfl]
      rw [if_pos (by norm_num)]
    rw [this]
    exact ⟨rfl, rfl⟩
  refine ⟨h01, ?_, h12, ?_, ?_, rfl, rfl, h23top.1, h23top.2⟩
  · exact topCountOf_single_notTop 0 187.5 330 0 (-59.7) _
      (by norm_num [trace1, trace0])
  · exact topCountOf_single_top 0 187.5 270.3 0 (-59.4015) _
      (by norm_num [trace2, trace1, trace0])
  · exact bottomCountOf_single_top 0 187.5 270.3 0 (-59.4015) _
      (by norm_num [trace2, trace1, trace0])

/-- Witness for C2's amended theorem: a pending, unelapsed timer keeps the
match playing. -/
theorem win_debounce_witness :
    (update (oneTopPuck (some 1000)) 500).gameState = .playing :=
  (win_debounce (oneTopPuck (some 1000)) 500 rfl).2.1 1000 rfl (by norm_num)

/-! ## Claim C6: no division by zero in the cap collision -/

/-- At zero distance both coordinate differences vanish. -/
theorem distOf_eq_zero {p : Puck} {cx cy : ℝ} (h : distOf p cx cy = 0) :
    p.x = cx ∧ p.y = cy := by
  unfold distOf at h
  have hx : 0 ≤ (p.x - cx) * (p.x - cx) := mul_self_nonneg _
  have hy : 0 ≤ (p.y - cy) * (p.y - cy) := mul_self_nonneg _
  have hsum : (p.x - cx) * (p.x - cx) + (p.y - cy) * (p.y - cy) ≤ 0 :=
    Real.sqrt_eq_zero'.mp h
  constructor
  · nlinarith
  · nlinarith

/-- Claim C6: `checkCapCollision` never divides by zero: the divisor used for
the collision normal is the guarded `safeDist`, which is at least `1e-6` for
every input; in the fully degenerate case where the puck center coincides with
the cap center (distance exactly zero) the result is well defined — the
position is left unchanged and the velocity is merely damped (every component
stays a real number; no NaN or infinity can arise). -/
theorem checkCapCollision_no_div_by_zero (p : Puck) (cx cy r : ℝ) :
    (1e-6 : ℝ) ≤ safeDistOf p cx cy ∧
    (distOf p cx cy = 0 → 0 < r + PUCK_RADIUS →
      (checkCapCollision p cx cy r).x = p.x ∧
      (checkCapCollision p cx cy r).y = p.y ∧
      (checkCapCollision p cx cy r).vx = p.vx * BOUNCE_DAMPING ∧
      (checkCapCollision p cx cy r).vy = p.vy * BOUNCE_DAMPING) := by
  refine ⟨safeDistOf_pos p cx cy, fun hd hr => ?_⟩
  obtain ⟨hx, hy⟩ := distOf_eq_zero hd
  have hsafe : safeDistOf p cx cy = 1e-6 := by
    unfold safeDistOf
    rw [hd]
    norm_num
  unfold checkCapCollision
  rw [if_pos (by rw [hd]; exact hr)]
  simp only [hsafe, hd, hx, hy]
  norm_num

/-- Witness for C6: a puck sitting exactly on a cap center. -/
theorem checkCapCollision_no_div_by_zero_witness :
    (1e-6 : ℝ) ≤ safeDistOf ⟨0, 5, 7, 3, 4⟩ 5 7 ∧
    ((checkCapCollision ⟨0, 5, 7, 3, 4⟩ 5 7 10).x = 5 ∧
      (checkCapCollision ⟨0, 5, 7, 3, 4⟩ 5 7 10).y = 7 ∧
      (checkCapCollision ⟨0, 5, 7, 3, 4⟩ 5 7 10).vx = 3 * BOUNCE_DAMPING ∧
      (checkCapCollision ⟨0, 5, 7, 3, 4⟩ 5 7 10).vy = 4 * BOUNCE_DAMPING) := by
  have hd : distOf ⟨0, 5, 7, 3, 4⟩ 5 7 = 0 := by
    unfold distOf
    norm_num
  have h := checkCapCollision_no_div_by_zero ⟨0, 5, 7, 3, 4⟩ 5 7 10
  exact ⟨h.1, h.2 hd (by unfold PUCK_RADIUS; norm_num)⟩

/-! ## Claim C5: degenerate wall segments -/

/-- Counterexample for C5 as stated: at level 4 (two independently moving
gaps) with both holes aligned at the center — e.g. at instant `now = 0`,
where both oscillation offsets are exactly zero — the wall-segment list
returned by src/main.js contains the inverted middle segment
`{start: 237.5, end: 137.5}` with `end ≤ start`.  So the Geometry Provider of
src/main.js does return degenerate segments (the `part_003` variant filters
them out instead). -/
theorem getWallSegments_degenerate_counterexample :
    (⟨237.5, 137.5⟩ : Segment) ∈ getWallSegments 3 375 0 200 ∧
    (Segment.mk 237.5 137.5).«end» ≤ (Segment.mk 237.5 137.5).start := by
  constructor
  · unfold getWallSegments getOffset HOLE_WIDTH
    norm_num [Real.sin_pi]
  · show (137.5 : ℝ) ≤ 237.5
    norm_num

/-- Claim C5 amended: the `part_003` variant's Geometry Provider never returns
a segment with `end ≤ start` (it filters them), and the collision step never
acts on a segment with `end < start` — the horizontal containment test
`x ≥ start ∧ x ≤ end` is unsatisfiable for such a segment, so `wallCollide`
leaves every puck unchanged.  (The src/main.js provider, by contrast, can
return such segments — see the counterexample — and its renderer draws every
returned segment unconditionally.) -/
theorem degenerate_segments_filtered_and_ignored :
    (∀ (w : ℝ) (cps : Option ParamState) (seg : Segment),
      seg ∈ getWallSegmentsFiltered w cps → seg.start < seg.«end») ∧
    (∀ (wallY halfWallThick : ℝ) (p : Puck) (seg : Segment),
      seg.«end» < seg.start → wallCollide wallY halfWallThick p seg = p) := by
  constructor
  · intro w cps seg hmem
    match cps with
    | none => simp [getWallSegmentsFiltered] at hmem
    | some st =>
      unfold getWallSegmentsFiltered at hmem
      have := (List.mem_filter.mp hmem).2
      exact of_decide_eq_true this
  · intro wallY halfWallThick p seg hdeg
    unfold wallCollide
    split
    · rw [if_neg]
      rintro ⟨h1, h2⟩
      linarith
    · rfl

/-- Witness for C5's amended theorem: a concrete overlapping-hole parameter
state whose filtered list retains only proper segments, and a concrete puck
standing inside the span of an inverted segment that `wallCollide` ignores. -/
theorem degenerate_segments_filtered_and_ignored_witness :
    (Segment.mk 0 137.5).start < (Segment.mk 0 (137.5 : ℝ)).«end» ∧
    wallCollide 300 10 ⟨0, 200, 300, 1, 2⟩ ⟨237.5, 137.5⟩ = ⟨0, 200, 300, 1, 2⟩ := by
  constructor
  · refine degenerate_segments_filtered_and_ignored.1 375
      (some ⟨⟨0, 0⟩, ⟨0, 0⟩⟩) ⟨0, 137.5⟩ ?_
    unfold getWallSegmentsFiltered HOLE_WIDTH
    norm_num
  · exact degenerate_segments_filtered_and_ignored.2 300 10
      ⟨0, 200, 300, 1, 2⟩ ⟨237.5, 137.5⟩ (by norm_num)

/-! ## Claim C10: frame condition of the cap collision -/

/-- Claim C10: `checkCapCollision` only ever writes the position and velocity
of the one puck it is given (its identity is preserved — the function touches
no other state), and whenever the center distance is at least the combined
radius `halfWallThick + PUCK_RADIUS` the puck is returned completely
unchanged. -/
theorem checkCapCollision_frame (p : Puck) (cx cy r : ℝ) :
    (checkCapCollision p cx cy r).id = p.id ∧
    (r + PUCK_RADIUS ≤ distOf p cx cy → checkCapCollision p cx cy r = p) := by
  constructor
  · simp only [checkCapCollision]
    split <;> rfl
  · exact checkCapCollision_far

/-! ## Claim C4: an anchorless release leaves zero velocity -/

/-- Helper: replacing the value stored at a present key makes lookup return
the new value. -/
theorem lookupTouch_setTouch_self (id : ℕ) (t1 : Touch) :
    ∀ ts : List (ℕ × Touch), (lookupTouch id ts).isSome = true →
      lookupTouch id (setTouch id t1 ts) = some t1
  | [], h => by simp [lookupTouch] at h
  | (k, u) :: rest, h => by
    by_cases hk : k = id
    · unfold setTouch
      rw [if_pos hk]
      unfold lookupTouch
      rw [if_pos hk]
    · unfold setTouch
      rw [if_neg hk]
      unfold lookupTouch
      rw [if_neg hk]
      unfold lookupTouch at h
      rw [if_neg hk] at h
      exact lookupTouch_setTouch_self id t1 rest h

/-- Helper: replacing the value at a different key does not affect lookup. -/
theorem lookupTouch_setTouch_ne (id id' : ℕ) (t1 : Touch) (hne : id' ≠ id) :
    ∀ ts : List (ℕ × Touch),
      lookupTouch id (setTouch id' t1 ts) = lookupTouch id ts
  | [] => rfl
  | (k, u) :: rest => by
    by_cases hk : k = id'
    · unfold setTouch
      rw [if_pos hk]
      unfold lookupTouch
      rw [if_neg (by rw [hk]; exact hne), if_neg (by rw [hk]; exact hne)]
    · unfold setTouch
      rw [if_neg hk]
      unfold lookupTouch
      by_cases hk2 : k = id
      · rw [if_pos hk2, if_pos hk2]
      · rw [if_neg hk2, if_neg hk2]
        exact lookupTouch_setTouch_ne id id' t1 hne rest

/-- Helper: a session-creating press stores a session whose puck has just had
its velocity zeroed. -/
theorem zvs_handleStart (s : GameState) (x y : ℝ) (id : ℕ) (jit : ℕ → ℝ × ℝ)
    (hnone : lookupTouch id s.activeTouches = none)
    (hsome : (lookupTouch id (handleStart s x y id jit).activeTouches).isSome
      = true) :
    ZeroVelSession id (handleStart s x y id jit) := by
  by_cases hg : s.gameState ≠ GState.playing
  · unfold handleStart at hsome
    rw [if_pos hg] at hsome
    simp [startGame, lookupTouch] at hsome
  · unfold handleStart at hsome ⊢
    rw [if_neg hg] at hsome ⊢
    rw [if_neg (by simp [hnone])] at hsome ⊢
    rcases hfc : findClickedAux s.activeTouches x y s.pucks 0 with _ | i
    · simp only [hfc] at hsome ⊢
      rw [hnone] at hsome
      simp at hsome
    · simp only [hfc] at hsome ⊢
      rcases hp : s.pucks[i]? with _ | puck
      · simp only [hp] at hsome ⊢
        rw [hnone] at hsome
        simp at hsome
      · simp only [hp] at hsome ⊢
        by_cases hside : (y < s.height / 2 ↔ puck.y < s.height / 2)
        · rw [if_pos hside]
          refine ⟨⟨i, x, y, x, y, none,
            if y < s.height / 2 then Side.top else Side.bottom⟩, ?_, ?_⟩
          · show lookupTouch id ((id, _) :: s.activeTouches) = _
            unfold lookupTouch
            rw [if_pos rfl]
          · have hlen : i < s.pucks.length := (List.getElem?_eq_some.mp hp).1
            exact ⟨{ puck with vx := 0, vy := 0 },
              List.getElem?_set_eq_of_lt _ hlen, rfl, rfl⟩
        · rw [if_neg hside] at hsome
          rw [hnone] at hsome
          simp at hsome

/-- Helper: a move event never writes any puck's velocity and never changes a
session's puck index, so a zero-velocity session stays one. -/
theorem zvs_handleMove (id : ℕ) (s : GameState) (x y : ℝ) (id' : ℕ)
    (h : ZeroVelSession id s) : ZeroVelSession id (handleMove s x y id') := by
  obtain ⟨t, hlt, p, hp, hvx, hvy⟩ := h
  unfold handleMove
  rcases ht' : lookupTouch id' s.activeTouches with _ | touch
  · simp only [ht']
    exact ⟨t, hlt, p, hp, hvx, hvy⟩
  · simp only [ht']
    rcases hp' : s.pucks[touch.puckIndex]? with _ | puck
    · simp only [hp']
      exact ⟨t, hlt, p, hp, hvx, hvy⟩
    · simp only [hp']
      have hmain : ∀ (q : Puck) (t1 : Touch), q.vx = puck.vx → q.vy = puck.vy →
          t1.puckIndex = touch.puckIndex →
          ZeroVelSession id { s with
            pucks := s.pucks.set touch.puckIndex q,
            activeTouches := setTouch id' t1 s.activeTouches } := by
        intro q t1 hqx hqy hti
        by_cases hid : id' = id
        · subst hid
          rw [hlt] at ht'
          obtain rfl : t = touch := Option.some.inj ht'
          refine ⟨t1, ?_, ?_⟩
          · exact lookupTouch_setTouch_self id' t1 s.activeTouches
              (by rw [hlt]; rfl)
          · have hlen : t.puckIndex < s.pucks.length :=
              (List.getElem?_eq_some.mp hp').1
            obtain rfl : p = puck := by
              rw [hp] at hp'
              exact Option.some.inj hp'
            refine ⟨q, ?_, ?_, ?_⟩
            · rw [hti]
              exact List.getElem?_set_eq_of_lt _ hlen
            · rw [hqx]
              exact hvx
            · rw [hqy]
              exact hvy
        · refine ⟨t, ?_, ?_⟩
          · rw [lookupTouch_setTouch_ne id id' t1 hid]
            exact hlt
          · by_cases hpi : touch.puckIndex = t.puckIndex
            · have hlen : touch.puckIndex < s.pucks.length :=
                (List.getElem?_eq_some.mp hp').1
              obtain rfl : p = puck := by
                rw [hpi] at hp'
                rw [hp] at hp'
                exact Option.some.inj hp'
              refine ⟨q, ?_, ?_, ?_⟩
              · rw [← hpi]
                exact List.getElem?_set_eq_of_lt _ hlen
              · rw [hqx]
                exact hvx
              · rw [hqy]
                exact hvy
            · refine ⟨p, ?_, hvx, hvy⟩
              rw [List.getElem?_set_ne hpi]
              exact hp
      cases touch.side
      · exact hmain _ _ rfl rfl rfl
      · exact hmain _ _ rfl rfl rfl

/-- Helper: a burst of move events preserves the zero-velocity session. -/
theorem zvs_applyMoves (id : ℕ) : ∀ (moves : List (ℝ × ℝ × ℕ)) (s : GameState),
    ZeroVelSession id s → ZeroVelSession id (applyMoves s moves)
  | [], _, h => h
  | m :: rest, s, h =>
    zvs_applyMoves id rest (handleMove s m.1 m.2.1 m.2.2)
      (zvs_handleMove id s m.1 m.2.1 m.2.2 h)

/-- Helper: an anchorless release never touches the puck list. -/
theorem handleEnd_pucks_no_anchor (s : GameState) (id : ℕ) (t : Touch)
    (ht : lookupTouch id s.activeTouches = some t) (ha : t.anchor = none) :
    (handleEnd s id).pucks = s.pucks := by
  unfold handleEnd
  simp only [ht]
  rcases hp : s.pucks[t.puckIndex]? with _ | puck
  · simp only [hp]
  · simp only [hp, ha]

/-- Claim C4: a drag session created by a qualifying press (which zeroes the
claimed puck's velocity) and then mutated by any sequence of move events — for
any pointers — ends, if its anchor is unset at release time, with the puck's
velocity exactly `(0, 0)`: moves only reposition pucks and never write
velocities, and an anchorless `handleEnd` imparts nothing. -/
theorem anchorless_release_zero_velocity (s : GameState) (x y : ℝ) (id : ℕ)
    (jit : ℕ → ℝ × ℝ) (moves : List (ℝ × ℝ × ℕ)) (t1 : Touch)
    (hfresh : lookupTouch id s.activeTouches = none)
    (hcreated : (lookupTouch id
      (handleStart s x y id jit).activeTouches).isSome = true)
    (ht1 : lookupTouch id
      (applyMoves (handleStart s x y id jit) moves).activeTouches = some t1)
    (hanchor : t1.anchor = none) :
    ∃ p : Puck,
      (handleEnd (applyMoves (handleStart s x y id jit) moves)
        id).pucks[t1.puckIndex]? = some p ∧ p.vx = 0 ∧ p.vy = 0 := by
  obtain ⟨t, hlt, p, hp, hvx, hvy⟩ :=
    zvs_applyMoves id moves _ (zvs_handleStart s x y id jit hfresh hcreated)
  obtain rfl : t = t1 := by
    rw [hlt] at ht1
    exact Option.some.inj ht1
  rw [handleEnd_pucks_no_anchor _ id t hlt hanchor]
  exact ⟨p, hp, hvx, hvy⟩

/-- Witness for C4: press on the moving puck of `pressMatchState` (velocity
`(2, 3)` before the press), drag it from `(100, 299)` to `(100, 200)` — never
past the band line, so no anchor is set — and release: the puck ends at rest.
-/
theorem anchorless_release_zero_velocity_witness :
    ∃ p : Puck,
      (handleEnd (applyMoves
        (handleStart pressMatchState 100 299 7 (fun _ => (0, 0)))
        [(100, 200, 7)]) 7).pucks[0]? = some p ∧ p.vx = 0 ∧ p.vy = 0 := by
  have hd0 : pressDist (⟨0, 100, 290, 2, 3⟩ : Puck) 100 299 < PUCK_RADIUS * 3 := by
    unfold pressDist PUCK_RADIUS
    rw [show ((100 : ℝ) - 100) * (100 - 100) + (290 - 299) * (290 - 299) = 9 ^ 2 by
      norm_num, Real.sqrt_sq (by norm_num)]
    norm_num
  have hfc : findClickedAux pressMatchState.activeTouches 100 299
      pressMatchState.pucks 0 = some 0 := by
    unfold pressMatchState findClickedAux
    rw [if_pos ⟨by simp [isClaimed], hd0⟩]
  have h1 : handleStart pressMatchState 100 299 7 (fun _ => (0, 0)) =
      { gameState := .playing, winner := none, pucks := [⟨0, 100, 290, 0, 0⟩],
        activeTouches := [(7, ⟨0, 100, 299, 100, 299, none, Side.top⟩)],
        winTimestamp := none, topWins := 0, bottomWins := 0,
        currentLevel := 0, width := 375, height := 600, gapOffset := 200 } := by
    unfold handleStart
    rw [if_neg (by simp [pressMatchState]),
      if_neg (by simp [pressMatchState, lookupTouch])]
    have hp0 : pressMatchState.pucks[0]? = some ⟨0, 100, 290, 2, 3⟩ := rfl
    simp only [hfc, hp0]
    rw [if_pos (show (299 : ℝ) < pressMatchState.height / 2 ↔
      ((⟨0, 100, 290, 2, 3⟩ : Puck)).y < pressMatchState.height / 2 by
        norm_num [pressMatchState])]
    rw [if_pos (show (299 : ℝ) < pressMatchState.height / 2 by
      norm_num [pressMatchState])]
    rfl
  have h2 : handleMove
      { gameState := .playing, winner := none, pucks := [⟨0, 100, 290, 0, 0⟩],
        activeTouches := [(7, ⟨0, 100, 299, 100, 299, none, Side.top⟩)],
        winTimestamp := none, topWins := 0, bottomWins := 0,
        currentLevel := 0, width := 375, height := 600,
        gapOffset := (200 : ℝ) } 100 200 7 =
      { gameState := .playing, winner := none, pucks := [⟨0, 100, 200, 0, 0⟩],
        activeTouches := [(7, ⟨0, 100, 299, 100, 200, none, Side.top⟩)],
        winTimestamp := none, topWins := 0, bottomWins := 0,
        currentLevel := 0, width := 375, height := 600, gapOffset := 200 } := by
    unfold handleMove
    simp only [show lookupTouch 7
        [(7, (⟨0, 100, 299, 100, 299, none, Side.top⟩ : Touch))] =
        some ⟨0, 100, 299, 100, 299, none, Side.top⟩ from rfl]
    simp only [List.getElem?_cons_zero]
    rw [min_eq_left (by norm_num [PUCK_RADIUS] :
      (200 : ℝ) ≤ 600 / 2 - PUCK_RADIUS - 10)]
    rw [if_neg (by norm_num : ¬ (200 : ℝ) < 600 * 0.15)]
    rfl
  have hchain : applyMoves
      (handleStart pressMatchState 100 299 7 (fun _ => (0, 0)))
      [(100, 200, 7)] =
      { gameState := .playing, winner := none, pucks := [⟨0, 100, 200, 0, 0⟩],
        activeTouches := [(7, ⟨0, 100, 299, 100, 200, none, Side.top⟩)],
        winTimestamp := none, topWins := 0, bottomWins := 0,
        currentLevel := 0, width := 375, height := 600, gapOffset := 200 } := by
    unfold applyMoves
    simp only [List.foldl_cons, List.foldl_nil]
    rw [h1]
    exact h2
  exact anchorless_release_zero_velocity pressMatchState 100 299 7
    (fun _ => (0, 0)) [(100, 200, 7)] ⟨0, 100, 299, 100, 200, none, Side.top⟩
    rfl (by rw [h1]; rfl) (by rw [hchain]; rfl) rfl

/-! ## Claim C3: release impulse and speed cap -/

/-- Helper: the magnitude of the speed-capped launch velocity is exactly
`MAX_SPEED`. -/
theorem capped_speed_eq {vx vy : ℝ}
    (h : Real.sqrt (vx * vx + vy * vy) > MAX_SPEED) :
    Real.sqrt (vx * (MAX_SPEED / Real.sqrt (vx * vx + vy * vy)) *
        (vx * (MAX_SPEED / Real.sqrt (vx * vx + vy * vy))) +
      vy * (MAX_SPEED / Real.sqrt (vx * vx + vy * vy)) *
        (vy * (MAX_SPEED / Real.sqrt (vx * vx + vy * vy)))) = MAX_SPEED := by
  set sd := Real.sqrt (vx * vx + vy * vy) with hsd
  have h50 : (0 : ℝ) < MAX_SPEED := by unfold MAX_SPEED; norm_num
  have hspos : 0 < sd := h50.trans h
  have hne : sd ≠ 0 := ne_of_gt hspos
  have hsq : sd ^ 2 = vx * vx + vy * vy :=
    Real.sq_sqrt (add_nonneg (mul_self_nonneg _) (mul_self_nonneg _))
  have hval : vx * (MAX_SPEED / sd) * (vx * (MAX_SPEED / sd)) +
      vy * (MAX_SPEED / sd) * (vy * (MAX_SPEED / sd)) = MAX_SPEED ^ 2 := by
    field_simp
    nlinarith [hsq]
  rw [hval, Real.sqrt_sq h50.le]

/-- Claim C3: releasing a drag session whose anchor is `(a.x, a.y)` while the
puck sits at `(p.x, p.y)` gives the puck velocity
`((a.x - p.x) * DRAG_FORCE, (a.y - p.y) * DRAG_FORCE)`; when the magnitude of
that vector exceeds `MAX_SPEED` it is rescaled to magnitude exactly
`MAX_SPEED` by a positive scalar, preserving its direction. -/
theorem handleEnd_release_velocity (s : GameState) (id : ℕ) (t : Touch)
    (a : Anchor) (p : Puck)
    (ht : lookupTouch id s.activeTouches = some t)
    (ha : t.anchor = some a)
    (hp : s.pucks[t.puckIndex]? = some p) :
    ∃ p1 : Puck, (handleEnd s id).pucks[t.puckIndex]? = some p1 ∧
      p1.x = p.x ∧ p1.y = p.y ∧ p1.id = p.id ∧
      (¬ Real.sqrt ((a.x - p.x) * DRAG_FORCE * ((a.x - p.x) * DRAG_FORCE) +
            (a.y - p.y) * DRAG_FORCE * ((a.y - p.y) * DRAG_FORCE)) > MAX_SPEED →
        p1.vx = (a.x - p.x) * DRAG_FORCE ∧ p1.vy = (a.y - p.y) * DRAG_FORCE) ∧
      (Real.sqrt ((a.x - p.x) * DRAG_FORCE * ((a.x - p.x) * DRAG_FORCE) +
            (a.y - p.y) * DRAG_FORCE * ((a.y - p.y) * DRAG_FORCE)) > MAX_SPEED →
        Real.sqrt (p1.vx * p1.vx + p1.vy * p1.vy) = MAX_SPEED ∧
        ∃ c : ℝ, 0 < c ∧ p1.vx = c * ((a.x - p.x) * DRAG_FORCE) ∧
          p1.vy = c * ((a.y - p.y) * DRAG_FORCE)) := by
  have hlen : t.puckIndex < s.pucks.length := (List.getElem?_eq_some.mp hp).1
  by_cases hcap : Real.sqrt ((a.x - p.x) * DRAG_FORCE * ((a.x - p.x) * DRAG_FORCE) +
      (a.y - p.y) * DRAG_FORCE * ((a.y - p.y) * DRAG_FORCE)) > MAX_SPEED
  · refine ⟨⟨p.id, p.x, p.y,
      (a.x - p.x) * DRAG_FORCE *
        (MAX_SPEED / Real.sqrt ((a.x - p.x) * DRAG_FORCE * ((a.x - p.x) * DRAG_FORCE) +
          (a.y - p.y) * DRAG_FORCE * ((a.y - p.y) * DRAG_FORCE))),
      (a.y - p.y) * DRAG_FORCE *
        (MAX_SPEED / Real.sqrt ((a.x - p.x) * DRAG_FORCE * ((a.x - p.x) * DRAG_FORCE) +
          (a.y - p.y) * DRAG_FORCE * ((a.y - p.y) * DRAG_FORCE)))⟩,
      ?_, rfl, rfl, rfl, fun hh => absurd hcap hh, fun _ => ?_⟩
    · simp only [handleEnd, ht, hp, ha, if_pos hcap]
      exact List.getElem?_set_eq_of_lt _ hlen
    · refine ⟨capped_speed_eq hcap, ?_⟩
      have h50 : (0 : ℝ) < MAX_SPEED := by unfold MAX_SPEED; norm_num
      exact ⟨MAX_SPEED / Real.sqrt ((a.x - p.x) * DRAG_FORCE * ((a.x - p.x) * DRAG_FORCE) +
          (a.y - p.y) * DRAG_FORCE * ((a.y - p.y) * DRAG_FORCE)),
        div_pos h50 (h50.trans hcap), by ring, by ring⟩
  · refine ⟨⟨p.id, p.x, p.y, (a.x - p.x) * DRAG_FORCE, (a.y - p.y) * DRAG_FORCE⟩,
      ?_, rfl, rfl, rfl, fun _ => ⟨rfl, rfl⟩, fun hh => absurd hh hcap⟩
    simp only [handleEnd, ht, hp, ha, if_neg hcap]
    exact List.getElem?_set_eq_of_lt _ hlen

/-- Witness for C3: a concrete over-speed release is capped to magnitude 50.
Anchor `(500, 400)`, puck at `(100, 100)`: raw impulse `(120, 90)` of
magnitude `150`, capped to `(40, 30)`. -/
theorem handleEnd_release_velocity_witness :
    ∃ p1 : Puck,
      (handleEnd
        { gameState := .playing, winner := none,
          pucks := [⟨0, 100, 100, 0, 0⟩],
          activeTouches := [(5, ⟨0, 0, 0, 0, 0, some ⟨500, 400⟩, .top⟩)],
          winTimestamp := none, topWins := 0, bottomWins := 0,
          currentLevel := 0, width := 375, height := 600, gapOffset := 200 }
        5).pucks[0]? = some p1 ∧
      Real.sqrt (p1.vx * p1.vx + p1.vy * p1.vy) = MAX_SPEED ∧
      ∃ c : ℝ, 0 < c ∧ p1.vx = c * ((500 - 100) * DRAG_FORCE) ∧
        p1.vy = c * ((400 - 100) * DRAG_FORCE) := by
  obtain ⟨p1, hget, -, -, -, -, hcap⟩ := handleEnd_release_velocity
    { gameState := .playing, winner := none,
      pucks := [⟨0, 100, 100, 0, 0⟩],
      activeTouches := [(5, ⟨0, 0, 0, 0, 0, some ⟨500, 400⟩, .top⟩)],
      winTimestamp := none, topWins := 0, bottomWins := 0,
      currentLevel := 0, width := 375, height := 600, gapOffset := 200 }
    5 ⟨0, 0, 0, 0, 0, some ⟨500, 400⟩, .top⟩ ⟨500, 400⟩ ⟨0, 100, 100, 0, 0⟩
    (by simp [lookupTouch]) rfl rfl
  have hfast : Real.sqrt ((500 - (100 : ℝ)) * DRAG_FORCE * ((500 - 100) * DRAG_FORCE) +
      (400 - (100 : ℝ)) * DRAG_FORCE * ((400 - 100) * DRAG_FORCE)) > MAX_SPEED := by
    unfold DRAG_FORCE MAX_SPEED
    rw [show (500 - (100:ℝ)) * 0.30 * ((500 - 100) * 0.30) +
        (400 - (100:ℝ)) * 0.30 * ((400 - 100) * 0.30) = 150 ^ 2 by norm_num]
    rw [Real.sqrt_sq (by norm_num)]
    norm_num
  obtain ⟨hmag, c, hc, hcx, hcy⟩ := hcap hfast
  exact ⟨p1, hget, hmag, c, hc, hcx, hcy⟩

/-! ## Claim C9: collision energy non-increase -/

/-- Helper: the four sequential boundary bounces never increase kinetic
energy. -/
theorem ke_boundaryCollide_le (w h : ℝ) (p : Puck) :
    ke (boundaryCollide w h p) ≤ ke p := by
  simp only [boundaryCollide]
  split_ifs <;> simp only [ke, BOUNCE_DAMPING] <;>
    nlinarith [mul_self_nonneg p.vx, mul_self_nonneg p.vy]

/-- Helper: the rectangular wall bounce never increases kinetic energy. -/
theorem ke_wallCollide_le (wallY halfWallThick : ℝ) (p : Puck) (seg : Segment) :
    ke (wallCollide wallY halfWallThick p seg) ≤ ke p := by
  simp only [wallCollide]
  split_ifs <;> simp only [ke, BOUNCE_DAMPING] <;>
    nlinarith [mul_self_nonneg p.vx, mul_self_nonneg p.vy]

/-- Helper: the cap bounce never increases kinetic energy.  The reflection
normal `(dx/safeDist, dy/safeDist)` has norm at most `1` (equal to `1` except
in the guarded near-zero-distance case, where it is shorter), so reflection
does not gain energy and damping then loses some. -/
theorem ke_checkCapCollision_le (p : Puck) (cx cy r : ℝ) :
    ke (checkCapCollision p cx cy r) ≤ ke p := by
  by_cases hcol : distOf p cx cy < r + PUCK_RADIUS
  · simp only [checkCapCollision]
    rw [if_pos hcol]
    simp only [ke, BOUNCE_DAMPING]
    have hsd6 : (1e-6 : ℝ) ≤ safeDistOf p cx cy := safeDistOf_pos p cx cy
    have hsdpos : 0 < safeDistOf p cx cy := lt_of_lt_of_le (by norm_num) hsd6
    have hdle : distOf p cx cy ≤ safeDistOf p cx cy := by
      unfold safeDistOf
      split
      · exact le_rfl
      · next hgt => exact le_of_not_lt hgt
    have hdnn : 0 ≤ distOf p cx cy := Real.sqrt_nonneg _
    have hd2 : distOf p cx cy ^ 2 =
        (p.x - cx) * (p.x - cx) + (p.y - cy) * (p.y - cy) :=
      Real.sq_sqrt (add_nonneg (mul_self_nonneg _) (mul_self_nonneg _))
    set sd := safeDistOf p cx cy with hsd
    have hn : (p.x - cx) / sd * ((p.x - cx) / sd) +
        (p.y - cy) / sd * ((p.y - cy) / sd) ≤ 1 := by
      rw [div_mul_div_comm, div_mul_div_comm, div_add_div_same,
        div_le_one (by positivity)]
      calc (p.x - cx) * (p.x - cx) + (p.y - cy) * (p.y - cy)
          = distOf p cx cy ^ 2 := hd2.symm
        _ ≤ sd ^ 2 := pow_le_pow_left₀ hdnn hdle 2
        _ = sd * sd := by ring
    nlinarith [hn, mul_self_nonneg p.vx, mul_self_nonneg p.vy,
      mul_nonneg
        (mul_self_nonneg (p.vx * ((p.x - cx) / sd) + p.vy * ((p.y - cy) / sd)))
        (sub_nonneg.mpr hn)]
  · simp only [checkCapCollision]
    rw [if_neg hcol]

set_option maxHeartbeats 1600000 in
/-- Helper: the equal-mass normal-swap exchange with damping never increases
the pair's combined kinetic energy, as long as the two centers are distinct
(the source divides by the center distance with no guard here; at distance
exactly zero IEEE arithmetic would produce NaN, which the real-valued model
cannot express). -/
theorem ke_pairCollide_le (p1 p2 : Puck) (hne : p2.x ≠ p1.x ∨ p2.y ≠ p1.y) :
    ke (pairCollide p1 p2).1 + ke (pairCollide p1 p2).2 ≤ ke p1 + ke p2 := by
  have hpos : 0 < (p2.x - p1.x) * (p2.x - p1.x) + (p2.y - p1.y) * (p2.y - p1.y) := by
    rcases hne with h | h
    · nlinarith [mul_self_pos.mpr (sub_ne_zero.mpr h), mul_self_nonneg (p2.y - p1.y)]
    · nlinarith [mul_self_pos.mpr (sub_ne_zero.mpr h), mul_self_nonneg (p2.x - p1.x)]
  have hdpos : 0 < Real.sqrt ((p2.x - p1.x) * (p2.x - p1.x) +
      (p2.y - p1.y) * (p2.y - p1.y)) := Real.sqrt_pos.mpr hpos
  have hd2 : Real.sqrt ((p2.x - p1.x) * (p2.x - p1.x) +
      (p2.y - p1.y) * (p2.y - p1.y)) ^ 2 =
      (p2.x - p1.x) * (p2.x - p1.x) + (p2.y - p1.y) * (p2.y - p1.y) :=
    Real.sq_sqrt hpos.le
  by_cases hlt : Real.sqrt ((p2.x - p1.x) * (p2.x - p1.x) +
      (p2.y - p1.y) * (p2.y - p1.y)) < PUCK_RADIUS * 2
  · simp only [pairCollide]
    rw [if_pos hlt]
    simp only [ke, BOUNCE_DAMPING]
    set dist := Real.sqrt ((p2.x - p1.x) * (p2.x - p1.x) +
      (p2.y - p1.y) * (p2.y - p1.y)) with hdist
    set nx := (p2.x - p1.x) / dist with hnx
    set ny := (p2.y - p1.y) / dist with hny
    have hn : nx * nx + ny * ny = 1 := by
      rw [hnx, hny, div_mul_div_comm, div_mul_div_comm, div_add_div_same,
        div_eq_one_iff_eq (by positivity)]
      nlinarith [hd2]
    clear_value dist nx ny
    have htot :
        (-ny * (p1.vx * -ny + p1.vy * nx) + nx * (p2.vx * nx + p2.vy * ny)) *
          (-ny * (p1.vx * -ny + p1.vy * nx) + nx * (p2.vx * nx + p2.vy * ny)) +
        (nx * (p1.vx * -ny + p1.vy * nx) + ny * (p2.vx * nx + p2.vy * ny)) *
          (nx * (p1.vx * -ny + p1.vy * nx) + ny * (p2.vx * nx + p2.vy * ny)) +
        (-ny * (p2.vx * -ny + p2.vy * nx) + nx * (p1.vx * nx + p1.vy * ny)) *
          (-ny * (p2.vx * -ny + p2.vy * nx) + nx * (p1.vx * nx + p1.vy * ny)) +
        (nx * (p2.vx * -ny + p2.vy * nx) + ny * (p1.vx * nx + p1.vy * ny)) *
          (nx * (p2.vx * -ny + p2.vy * nx) + ny * (p1.vx * nx + p1.vy * ny)) =
        p1.vx * p1.vx + p1.vy * p1.vy + p2.vx * p2.vx + p2.vy * p2.vy := by
      linear_combination
        ((nx * nx + ny * ny + 1) *
          (p1.vx * p1.vx + p1.vy * p1.vy + p2.vx * p2.vx + p2.vy * p2.vy)) * hn
    nlinarith [htot, mul_self_nonneg p1.vx, mul_self_nonneg p1.vy,
      mul_self_nonneg p2.vx, mul_self_nonneg p2.vy]
  · simp only [pairCollide]
    rw [if_neg hlt]

/-- Claim C9: after any boundary, wall-segment, cap/obstacle, or puck-puck
collision, the combined kinetic energy of the involved pucks (uniform mass 1)
does not exceed its value before the collision, thanks to the damping factor
`BOUNCE_DAMPING < 1`.  For the puck-puck exchange the two centers must be
distinct (the undefended `0/0` of coincident centers would be NaN in IEEE
arithmetic and is outside the real-valued model). -/
theorem collision_energy_nonincrease
    (w h wallY halfWallThick cx cy r : ℝ) (seg : Segment) (p p1 p2 : Puck) :
    ke (boundaryCollide w h p) ≤ ke p ∧
    ke (wallCollide wallY halfWallThick p seg) ≤ ke p ∧
    ke (checkCapCollision p cx cy r) ≤ ke p ∧
    (p2.x ≠ p1.x ∨ p2.y ≠ p1.y →
      ke (pairCollide p1 p2).1 + ke (pairCollide p1 p2).2 ≤ ke p1 + ke p2) :=
  ⟨ke_boundaryCollide_le w h p, ke_wallCollide_le wallY halfWallThick p seg,
    ke_checkCapCollision_le p cx cy r, fun hne => ke_pairCollide_le p1 p2 hne⟩

/-- Witness for C9: a concrete boundary bounce and a concrete colliding pair
(centers 10 apart, well inside the collision range of 30). -/
theorem collision_energy_nonincrease_witness :
    ke (boundaryCollide 375 600 ⟨0, -5, 300, 3, 4⟩) ≤ ke ⟨0, -5, 300, 3, 4⟩ ∧
    ke (pairCollide ⟨0, 0, 0, 3, 4⟩ ⟨1, 10, 0, -2, 1⟩).1 +
      ke (pairCollide ⟨0, 0, 0, 3, 4⟩ ⟨1, 10, 0, -2, 1⟩).2 ≤
      ke ⟨0, 0, 0, 3, 4⟩ + ke ⟨1, 10, 0, -2, 1⟩ :=
  ⟨(collision_energy_nonincrease 375 600 300 10 0 0 10 ⟨0, 450⟩
      ⟨0, -5, 300, 3, 4⟩ ⟨0, 0, 0, 3, 4⟩ ⟨1, 10, 0, -2, 1⟩).1,
    (collision_energy_nonincrease 375 600 300 10 0 0 10 ⟨0, 450⟩
      ⟨0, -5, 300, 3, 4⟩ ⟨0, 0, 0, 3, 4⟩ ⟨1, 10, 0, -2, 1⟩).2.2.2
      (Or.inl (by norm_num))⟩

/-- Witness for C10: a puck far away from a cap is untouched. -/
theorem checkCapCollision_frame_witness :
    (checkCapCollision ⟨3, 100, 0, 1, 2⟩ 0 0 10).id = 3 ∧
    checkCapCollision ⟨3, 100, 0, 1, 2⟩ 0 0 10 = ⟨3, 100, 0, 1, 2⟩ := by
  have hfar : (10 : ℝ) + PUCK_RADIUS ≤ distOf ⟨3, 100, 0, 1, 2⟩ 0 0 := by
    apply far_of_sq_le
    unfold PUCK_RADIUS
    norm_num
  have h := checkCapCollision_frame ⟨3, 100, 0, 1, 2⟩ 0 0 10
  exact ⟨h.1, h.2 hfar⟩

end

end NeonPuck
